import Mathlib

/-!
Verification model of the wolfHSM SHE server core (`src/wh_server_she.c`) and
the shared-memory transport (`src/wh_transport_mem.c`).

Modelling conventions:
* Bytes are `Nat` values (< 256 where it matters); buffers are `List Nat`.
* Machine integers are `Nat` with explicit `% 2^16` / `% 2^32` where the C
  code relies on fixed-width wrap-around.
* The host is little-endian (the code targets little-endian MCUs and uses
  `ntohl` from `arpa/inet.h`, which is only a non-trivial byte swap on a
  little-endian host): a `uint32_t` load through a byte pointer is `le32`,
  and `ntohl`/`htonl` are `bswap32`.
* The AES/CMAC primitives are external collaborators (out of scope per the
  specification); they are abstract function parameters in a `Crypto`
  bundle.  wolfCrypt calls are modelled as total (they never fail for the
  well-formed arguments the handlers pass).
* Null pointers, where a claim talks about them, are modelled with `Option`.
-/

/-- Truncate or zero-pad a byte list to exactly 16 bytes, modelling a read
of a fixed 16-byte buffer. -/
def to16 (xs : List Nat) : List Nat := (xs ++ List.replicate 16 0).take 16

/-- Truncate or zero-pad a byte list to exactly `n` bytes. -/
def toN (n : Nat) (xs : List Nat) : List Nat := (xs ++ List.replicate n 0).take n

/-- Bytewise xor of two buffers. -/
def xorB (a b : List Nat) : List Nat := List.zipWith Nat.xor a b

/-- Sixteen zero bytes (an all-zero AES block / zero IV). -/
def zeros16 : List Nat := List.replicate 16 0

/-- Little-endian decode of the first four bytes of a buffer: the value a
little-endian host reads through `*(uint32_t*)p`. -/
def le32 (xs : List Nat) : Nat :=
  xs.getD 0 0 + xs.getD 1 0 * 2^8 + xs.getD 2 0 * 2^16 + xs.getD 3 0 * 2^24

/-- Little-endian byte image of a 32-bit value: what storing it through
`*(uint32_t*)p` on a little-endian host leaves in memory. -/
def le32bytes (x : Nat) : List Nat :=
  [x % 256, x / 2^8 % 256, x / 2^16 % 256, x / 2^24 % 256]

/-- Byte swap of a 32-bit value; `ntohl`/`htonl` on a little-endian host. -/
def bswap32 (x : Nat) : Nat :=
  (x % 256) * 2^24 + (x / 2^8 % 256) * 2^16 + (x / 2^16 % 256) * 2^8 + x / 2^24 % 256

/-- Big-endian decode of the first four bytes of a buffer (the wire decoding
named by the specification). -/
def be32 (xs : List Nat) : Nat :=
  xs.getD 0 0 * 2^24 + xs.getD 1 0 * 2^16 + xs.getD 2 0 * 2^8 + xs.getD 3 0

/-- Return and SHE wire error codes.  The C code uses distinct integer
constants (`WH_ERROR_*` negative, `WOLFHSM_SHE_ERC_*` positive, 0 for
success); only their distinctness and identity matter to the handlers, so
they are modelled as an inductive type with `ok` standing for 0
(= `WOLFHSM_SHE_ERC_NO_ERROR` on the wire). -/
inductive Rc where
  | ok | badArgs | notFound | notReady
  | seqErr | keyNotAvail | keyInvalid | keyEmpty | noSecureBoot
  | writeProtected | keyUpdateErr | rngSeed | noDebugging | busy
  | memFailure | generalErr
  deriving DecidableEq, Repr

/-- Secure-boot phase (`enum WOLFHSM_SHE_SB_STATE`). -/
inductive SbState where
  | init | update | finish | success | failure
  deriving DecidableEq, Repr

/-- Abstract crypto provider: AES-128 block encrypt, ECB/CBC modes and
AES-CMAC, as consumed from wolfCrypt.  Keys, IVs, messages and outputs are
byte lists. -/
structure Crypto where
  aesEnc : List Nat → List Nat → List Nat
  aesEcbEnc : List Nat → List Nat → List Nat
  aesEcbDec : List Nat → List Nat → List Nat
  aesCbcEnc : List Nat → List Nat → List Nat → List Nat
  aesCbcDec : List Nat → List Nat → List Nat → List Nat
  cmac : List Nat → List Nat → List Nat

/-- Minimal well-formedness of the block cipher: a block encryption outputs
one 16-byte block. -/
def GoodCrypto (c : Crypto) : Prop := ∀ k b, (c.aesEnc k b).length = 16

/-- Concrete instantiation of the crypto provider used to evaluate the
model at concrete inputs (the primitives themselves are out of scope). -/
def trivCrypto : Crypto where
  aesEnc := fun k b => to16 (xorB (to16 k) (to16 b))
  aesEcbEnc := fun _ d => d
  aesEcbDec := fun _ d => d
  aesCbcEnc := fun _ _ d => d
  aesCbcDec := fun _ _ d => d
  cmac := fun _ _ => zeros16

theorem trivCrypto_good : GoodCrypto trivCrypto := by
  intro k b
  simp [trivCrypto, to16]

/-! ### AES-MP16 (Miyaguchi–Preneel compression, `wh_AesMp16`) -/

/-- Copy of one 16-byte block from position `i` of the input, zero-padding a
short final block — the `paddedInput` preparation in `wh_AesMp16`. -/
def padTo16 (xs : List Nat) : List Nat := xs ++ List.replicate (16 - xs.length) 0

/-- One loop iteration of `wh_AesMp16`: encrypt the padded block under the
previous output, then xor in the padded block and the previous output. -/
def mpStep (c : Crypto) (h b : List Nat) : List Nat := xorB (xorB (c.aesEnc h b) b) h

/-- Fuel-indexed rendering of the `wh_AesMp16` loop; each iteration consumes
one 16-byte block of the remaining input.  The fuel is only a structural
recursion device: `input.length` is always enough. -/
def mp16Go (c : Crypto) : Nat → List Nat → List Nat → List Nat
  | _, h, [] => h
  | 0, h, _ :: _ => h
  | fuel + 1, h, x :: xs =>
      mp16Go c fuel (mpStep c h (padTo16 ((x :: xs).take 16))) ((x :: xs).drop 16)

/-- Core computation of `wh_AesMp16` on a non-null input (the argument
checks live in `wh_AesMp16` below). -/
def aesMp16 (c : Crypto) (input : List Nat) : List Nat :=
  mp16Go c input.length zeros16 input

/-- Model of `wh_AesMp16` including its argument validation: the `server`,
`in` and `out` pointers are `Option`s (`none` = NULL) and a zero-length
input is rejected, exactly as in the C entry check. -/
def wh_AesMp16 (c : Crypto) (server : Option Unit) (input : Option (List Nat))
    (outBuf : Option Unit) : Except Rc (List Nat) :=
  match server, input, outBuf with
  | some _, some bytes, some _ =>
      if bytes.length = 0 then .error .badArgs else .ok (aesMp16 c bytes)
  | _, _, _ => .error .badArgs

/-- Zero-pad a message to a whole number of 16-byte blocks (the
specification's description of the MP16 input preparation). -/
def padInput (xs : List Nat) : List Nat :=
  xs ++ List.replicate ((16 - xs.length % 16) % 16) 0

/-- Fuel-indexed chunking of a buffer into 16-byte pieces. -/
def chunks16Go : Nat → List Nat → List (List Nat)
  | _, [] => []
  | 0, _ :: _ => []
  | fuel + 1, x :: xs => (x :: xs).take 16 :: chunks16Go fuel ((x :: xs).drop 16)

/-- Chunking of a buffer into 16-byte pieces (last piece may be short). -/
def chunks16 (xs : List Nat) : List (List Nat) := chunks16Go xs.length xs

/-- MP16 as the specification states it: `H_0 = 0^128` and
`H_i = AES_Enc(key = H_(i-1), B_i) XOR B_i XOR H_(i-1)` folded over the
16-byte blocks `B_i` of the zero-padded input. -/
def mp16Spec (c : Crypto) (input : List Nat) : List Nat :=
  (chunks16 (padInput input)).foldl (mpStep c) zeros16

/-! ### SHE constants

The KDF constants are taken verbatim from `wh_server_she.c`.  Slot IDs,
flag bits and action codes live in headers outside the provided sources;
they are modelled from the spec (only their distinctness is used). -/

/-- KDF constant `WOLFHSM_SHE_KEY_UPDATE_ENC_C` (from the source). -/
def KEY_UPDATE_ENC_C : List Nat :=
  [0x01, 0x01, 0x53, 0x48, 0x45, 0x00, 0x80, 0, 0, 0, 0, 0, 0, 0, 0, 0xB0]

/-- KDF constant `WOLFHSM_SHE_KEY_UPDATE_MAC_C` (from the source). -/
def KEY_UPDATE_MAC_C : List Nat :=
  [0x01, 0x02, 0x53, 0x48, 0x45, 0x00, 0x80, 0, 0, 0, 0, 0, 0, 0, 0, 0xB0]

/-- KDF constant `WOLFHSM_SHE_PRNG_KEY_C` (from the source). -/
def PRNG_KEY_C : List Nat :=
  [0x01, 0x04, 0x53, 0x48, 0x45, 0x00, 0x80, 0, 0, 0, 0, 0, 0, 0, 0, 0xB0]

/-- KDF constant `WOLFHSM_SHE_PRNG_SEED_KEY_C` (from the source). -/
def PRNG_SEED_KEY_C : List Nat :=
  [0x01, 0x05, 0x53, 0x48, 0x45, 0x00, 0x80, 0, 0, 0, 0, 0, 0, 0, 0, 0xB0]

/-- Modelled from the spec: reserved SHE slot IDs (`WOLFHSM_SHE_*_ID` in the
missing header); only distinctness and fitting in the M1 nibble matter. -/
def SECRET_KEY_ID : Nat := 0
/-- Modelled from the spec: the `BOOT_MAC_KEY` slot. -/
def BOOT_MAC_KEY_ID : Nat := 2
/-- Modelled from the spec: the `BOOT_MAC` digest slot. -/
def BOOT_MAC_ID : Nat := 3
/-- Modelled from the spec: the transient RAM key slot. -/
def RAM_KEY_ID : Nat := 14
/-- Modelled from the spec: the persisted PRNG seed slot. -/
def PRNG_SEED_ID : Nat := 15

/-- Modelled from the spec: the `WRITE_PROTECT` metadata flag bit. -/
def FLAG_WRITE_PROTECT : Nat := 1
/-- Modelled from the spec: the `WILDCARD` metadata flag bit. -/
def FLAG_WILDCARD : Nat := 4

/-- Modelled from the spec: the dense action-code enumeration of the
fifteen SHE commands (`WH_SHE_*` / `WOLFHSM_SHE_*` in the missing header);
only distinctness matters to the dispatcher. -/
def WH_SHE_SET_UID : Nat := 1
/-- Modelled from the spec: `SECURE_BOOT_INIT` action code. -/
def WH_SHE_SECURE_BOOT_INIT : Nat := 2
/-- Modelled from the spec: `SECURE_BOOT_UPDATE` action code. -/
def WH_SHE_SECURE_BOOT_UPDATE : Nat := 3
/-- Modelled from the spec: `SECURE_BOOT_FINISH` action code. -/
def WH_SHE_SECURE_BOOT_FINISH : Nat := 4
/-- Modelled from the spec: `GET_STATUS` action code. -/
def WH_SHE_GET_STATUS : Nat := 5
/-- Modelled from the spec: `LOAD_KEY` action code. -/
def WH_SHE_LOAD_KEY : Nat := 6
/-- Modelled from the spec: `LOAD_PLAIN_KEY` action code. -/
def WH_SHE_LOAD_PLAIN_KEY : Nat := 7
/-- Modelled from the spec: `EXPORT_RAM_KEY` action code. -/
def WH_SHE_EXPORT_RAM_KEY : Nat := 8
/-- Modelled from the spec: `INIT_RND` action code. -/
def WH_SHE_INIT_RND : Nat := 9
/-- Modelled from the spec: `RND` action code. -/
def WH_SHE_RND : Nat := 10
/-- Modelled from the spec: `EXTEND_SEED` action code. -/
def WH_SHE_EXTEND_SEED : Nat := 11
/-- Modelled from the spec: `ENC_ECB` action code. -/
def WH_SHE_ENC_ECB : Nat := 12
/-- Modelled from the spec: `ENC_CBC` action code. -/
def WH_SHE_ENC_CBC : Nat := 13
/-- Modelled from the spec: `DEC_ECB` action code. -/
def WH_SHE_DEC_ECB : Nat := 14
/-- Modelled from the spec: `DEC_CBC` action code. -/
def WH_SHE_DEC_CBC : Nat := 15

/-- Modelled from the spec: sreg bit `SECURE_BOOT`. -/
def SREG_SECURE_BOOT : Nat := 2
/-- Modelled from the spec: sreg bit `BOOT_FINISHED`. -/
def SREG_BOOT_FINISHED : Nat := 4
/-- Modelled from the spec: sreg bit `BOOT_OK`. -/
def SREG_BOOT_OK : Nat := 8
/-- Modelled from the spec: sreg bit `RND_INIT`. -/
def SREG_RND_INIT : Nat := 16

/-! ### Keystore and engine state -/

/-- NVM metadata for one key (`whNvmMetadata` with the SHE `label` fields
`flags` and `count` flattened in).  `count` is the raw 32-bit value the
code stores (`*(uint32_t*)M2 >> 4` on the host). -/
structure WhMeta where
  id : Nat
  len : Nat
  flags : Nat
  count : Nat
  deriving DecidableEq, Repr

/-- Metadata read out of uninitialised stack memory when a slot is missing;
the C code leaves `meta` indeterminate in that case and the model picks
zeros (see `hsmSheLoadKey`). -/
def defaultMeta : WhMeta := { id := 0, len := 0, flags := 0, count := 0 }

/-- Modelled from the spec: the keystore (`hsmReadKey` / `hsmCacheKey` /
`wh_Nvm_AddObject` live outside the provided sources).  A single
association list from slot ID to metadata and key bytes; reads return the
most recent write, writes always succeed.  The cache/NVM distinction only
matters across restarts, which the model does not take. -/
abbrev Keystore : Type := List (Nat × WhMeta × List Nat)

/-- Modelled from the spec: `ReadKey(id)` — first matching entry. -/
def storeGet (st : Keystore) (id : Nat) : Option (WhMeta × List Nat) :=
  match st with
  | [] => none
  | (k, m, v) :: rest => if k = id then some (m, v) else storeGet rest id

/-- Modelled from the spec: `AddObject`/`CacheKey` — prepend (shadowing any
older entry for the slot). -/
def storePut (st : Keystore) (id : Nat) (m : WhMeta) (v : List Nat) : Keystore :=
  (id, m, v) :: st

/-- Process-wide SHE engine state: the module-level variables of
`wh_server_she.c` plus `server->sheUid` and the keystore.  The global
`sheCmac` accumulator is modelled as the CMAC key plus the accumulated
message (`wc_CmacUpdate` appends; `wc_CmacFinal` applies the primitive). -/
structure SheState where
  uid : List Nat
  uidSet : Bool
  sbState : SbState
  blSize : Nat
  blSizeReceived : Nat
  cmacKeyFound : Bool
  ramKeyPlain : Bool
  rndInited : Bool
  prngState : List Nat
  prngKey : List Nat
  cmacKey : List Nat
  cmacMsg : List Nat
  store : Keystore
  deriving DecidableEq, Repr

/-- Request-side packet fields used by the SHE handlers (the C `whPacket`
union, one field per handler input). -/
structure SheRequest where
  uid : List Nat := []
  sz : Nat := 0
  chunk : List Nat := []
  m1 : List Nat := []
  m2 : List Nat := []
  m3 : List Nat := []
  key : List Nat := []
  entropy : List Nat := []
  keyId : Nat := 0
  iv : List Nat := []
  data : List Nat := []
  deriving DecidableEq, Repr

/-- Response-side packet fields written by the SHE handlers, with the stub
header's `rc`. -/
structure SheResponse where
  rc : Rc := .ok
  status : Rc := .ok
  sreg : Nat := 0
  rnd : List Nat := []
  m1 : List Nat := []
  m2 : List Nat := []
  m3 : List Nat := []
  m4 : List Nat := []
  m5 : List Nat := []
  sz : Nat := 0
  data : List Nat := []
  deriving DecidableEq, Repr

/-- Untouched response buffer. -/
def emptyResp : SheResponse := {}

/-! ### SHE command handlers (`hsmShe*` in `wh_server_she.c`) -/

/-- AuthID: the 4 rightmost bits of the last byte of M1 (`hsmShePopAuthId`). -/
def hsmShePopAuthId (messageOne : List Nat) : Nat :=
  (messageOne.getD 15 0).land 0x0f

/-- ID: the 4 leftmost bits of the last byte of M1 (`hsmShePopId`). -/
def hsmShePopId (messageOne : List Nat) : Nat :=
  ((messageOne.getD 15 0).land 0xf0) / 16

/-- Flags from M2: low nibble of byte 3 shifted up, high bit of byte 4 as
the low bit (`hsmShePopFlags`). -/
def hsmShePopFlags (messageTwo : List Nat) : Nat :=
  ((messageTwo.getD 3 0).land 0x0f) * 16 + ((messageTwo.getD 4 0).land 0x80) / 128

/-- Loop of the C `XMEMEQZERO(buffer, size)`: `while (size > 1) { size--;
if (buffer[size] != 0) return 0; } return 1;` — note it checks indices
`size-1` down to `1` and never index `0`. -/
def XMEMEQZERO (buffer : List Nat) : Nat → Bool
  | 0 => true
  | 1 => true
  | n + 2 => if buffer.getD (n + 1) 0 ≠ 0 then false else XMEMEQZERO buffer (n + 1)

/-- Modelled from the spec: `hsmReadKey` — look the slot up in the keystore
(`NOT_FOUND` becomes `none`). -/
def hsmReadKey (s : SheState) (id : Nat) : Option (WhMeta × List Nat) :=
  storeGet s.store id

/-- Handler result: status code, successor state, response fields. -/
abbrev HRes := Rc × SheState × SheResponse

/-- Handler `hsmSheSetUid`: reject a second SET_UID, otherwise copy the
15-byte UID and set the flag. -/
def hsmSheSetUid (s : SheState) (req : SheRequest) : HRes :=
  if s.uidSet then (.seqErr, s, emptyResp)
  else (.ok, { s with uid := toN 15 req.uid, uidSet := true }, emptyResp)

/-- Secure-boot state-machine reset done by the dispatcher when a
secure-boot handler fails (lines 1111–1119 of the source). -/
def resetSb (s : SheState) : SheState :=
  { s with sbState := .init, blSize := 0, blSizeReceived := 0, cmacKeyFound := false }

/-- Handler `hsmSheSecureBootInit`: record the expected bootloader size,
look for `BOOT_MAC_KEY` (missing → skip secure boot with
`NO_SECURE_BOOT`), otherwise start the CMAC over 12 zero bytes and the
4 bytes of the size in host (little-endian) order and advance to UPDATE. -/
def hsmSheSecureBootInit (s : SheState) (req : SheRequest) : HRes :=
  if s.sbState ≠ .init then (.seqErr, s, emptyResp)
  else
    let blSize := req.sz % 2^32
    let s1 := { s with blSize := blSize }
    match hsmReadKey s1 BOOT_MAC_KEY_ID with
    | none =>
        (.noSecureBoot, { s1 with sbState := .success, cmacKeyFound := false }, emptyResp)
    | some (_, macKey) =>
        (.ok,
         { s1 with cmacKeyFound := true, sbState := .update,
                   cmacKey := to16 macKey,
                   cmacMsg := List.replicate 12 0 ++ le32bytes blSize },
         { emptyResp with status := .ok })

/-- Handler `hsmSheSecureBootUpdate`: add the chunk size to the received
total (32-bit wrap), fail with `SEQUENCE_ERROR` when the total exceeds the
expected size, otherwise extend the CMAC and advance to FINISH when the
whole image has been fed. -/
def hsmSheSecureBootUpdate (s : SheState) (req : SheRequest) : HRes :=
  if s.sbState ≠ .update then (.seqErr, s, emptyResp)
  else
    let newReceived := (s.blSizeReceived + req.sz % 2^32) % 2^32
    let s1 := { s with blSizeReceived := newReceived }
    if s1.blSize < newReceived then (.seqErr, s1, emptyResp)
    else
      let s2 := { s1 with cmacMsg := s1.cmacMsg ++ req.chunk.take (req.sz % 2^32) }
      let s3 := if newReceived = s2.blSize then { s2 with sbState := .finish } else s2
      (.ok, s3, { emptyResp with status := .ok })

/-- Handler `hsmSheSecureBootFinish`: finalise the CMAC, read the stored
`BOOT_MAC` digest (missing → `KEY_NOT_AVAILABLE`) and compare: equal sets
SUCCESS, different sets FAILURE and fails with `GENERAL_ERROR`. -/
def hsmSheSecureBootFinish (c : Crypto) (s : SheState) : HRes :=
  if s.sbState ≠ .finish then (.seqErr, s, emptyResp)
  else
    let tag := to16 (c.cmac s.cmacKey s.cmacMsg)
    match hsmReadKey s BOOT_MAC_ID with
    | none => (.keyNotAvail, s, emptyResp)
    | some (_, digest) =>
        if tag = to16 digest then
          (.ok, { s with sbState := .success }, { emptyResp with status := .ok })
        else
          (.generalErr, { s with sbState := .failure }, emptyResp)

/-- Handler `hsmSheGetStatus`: assemble the sreg bits from the engine
state. -/
def hsmSheGetStatus (s : SheState) : HRes :=
  let r0 := 0
  let r1 := if s.cmacKeyFound then r0 ||| SREG_SECURE_BOOT else r0
  let r2 := if s.sbState = .success ∨ s.sbState = .failure then r1 ||| SREG_BOOT_FINISHED else r1
  let r3 := if s.sbState = .success then r2 ||| SREG_BOOT_OK else r2
  let r4 := if s.rndInited then r3 ||| SREG_RND_INIT else r3
  (.ok, s, { emptyResp with sreg := r4 })

/-- Handler `hsmSheLoadKey`: the M1/M2/M3 authenticated key-update
protocol.  Follows the source line by line; in particular the UID-zero
test is the (off-by-one) `XMEMEQZERO` above, and the anti-rollback
comparison is `ntohl(*(uint32_t*)M2 >> 4) <= ntohl(meta->count)`, i.e.
`bswap32 (le32 m2d / 16) ≤ bswap32 meta.count` on a little-endian host.
When the target slot is missing the C code reads indeterminate stack
metadata in the wildcard test; the model reads `defaultMeta` (flags 0). -/
def hsmSheLoadKey (c : Crypto) (s : SheState) (req : SheRequest) : HRes :=
  let m1 := req.m1
  match hsmReadKey s (hsmShePopAuthId m1) with
  | none => (.keyNotAvail, s, emptyResp)
  | some (_, authKey) =>
    let k2 := aesMp16 c (authKey ++ KEY_UPDATE_MAC_C)
    let tag := to16 (c.cmac k2 (toN 16 m1 ++ toN 32 req.m2))
    if tag ≠ to16 req.m3 then (.keyUpdateErr, s, emptyResp)
    else
      let k1 := aesMp16 c (authKey ++ KEY_UPDATE_ENC_C)
      let m2d := toN 32 (c.aesCbcDec k1 zeros16 (toN 32 req.m2))
      let slotId := hsmShePopId m1
      let found := (hsmReadKey s slotId).isSome
      let meta0 := match hsmReadKey s slotId with
                   | none => defaultMeta
                   | some (m, _) => m
      if found ∧ meta0.flags.land FLAG_WRITE_PROTECT ≠ 0 then
        (.writeProtected, s, emptyResp)
      else if XMEMEQZERO m1 15 ∧ meta0.flags.land FLAG_WILDCARD = 0 then
        (.keyUpdateErr, s, emptyResp)
      else if ¬ XMEMEQZERO m1 15 ∧ toN 15 m1 ≠ toN 15 s.uid then
        (.keyUpdateErr, s, emptyResp)
      else if found ∧ bswap32 (le32 m2d / 16) ≤ bswap32 meta0.count then
        (.keyUpdateErr, s, emptyResp)
      else
        let newMeta : WhMeta :=
          { id := slotId, len := 16, flags := hsmShePopFlags m2d, count := le32 m2d / 16 }
        let newKey := (m2d.drop 16).take 16
        let s1 := { s with store := storePut s.store slotId newMeta newKey }
        let k3 := aesMp16 c (newKey ++ KEY_UPDATE_ENC_C)
        let cnt4 := le32bytes (newMeta.count * 16 % 2^32)
        let blk := cnt4.set 3 ((cnt4.getD 3 0) ||| 0x08) ++ (m2d.drop 4).take 12
        let m4enc := c.aesEnc k3 blk
        let m4 := toN 15 s.uid ++ [m1.getD 15 0] ++ to16 m4enc
        let k4 := aesMp16 c (newKey ++ KEY_UPDATE_MAC_C)
        let m5 := to16 (c.cmac k4 m4)
        let s2 := if slotId = RAM_KEY_ID then { s1 with ramKeyPlain := true } else s1
        (.ok, s2, { emptyResp with m4 := m4, m5 := m5 })

/-- Handler `hsmSheLoadPlainKey`: cache the supplied 16 bytes in the RAM
slot with fresh zeroed metadata and set `ram_key_plain`. -/
def hsmSheLoadPlainKey (s : SheState) (req : SheRequest) : HRes :=
  let meta : WhMeta := { id := RAM_KEY_ID, len := 16, flags := 0, count := 0 }
  (.ok,
   { s with store := storePut s.store RAM_KEY_ID meta (toN 16 req.key),
            ramKeyPlain := true },
   emptyResp)

/-- Handler `hsmSheExportRamKey`: export the RAM key as an M1..M5 tuple
under `SECRET_KEY` with the counter fixed to 1 (`htonl(1) << 4` stored
little-endian). -/
def hsmSheExportRamKey (c : Crypto) (s : SheState) : HRes :=
  if s.ramKeyPlain = false then (.keyInvalid, s, emptyResp)
  else
    match hsmReadKey s SECRET_KEY_ID with
    | none => (.keyNotAvail, s, emptyResp)
    | some (_, sk) =>
      let m1 := toN 15 s.uid ++ [RAM_KEY_ID * 16 + SECRET_KEY_ID]
      let k1 := aesMp16 c (to16 sk ++ KEY_UPDATE_ENC_C)
      match hsmReadKey s RAM_KEY_ID with
      | none => (.keyNotAvail, s, emptyResp)
      | some (_, ramKey) =>
        let m2plain := le32bytes (bswap32 1 * 16 % 2^32) ++ List.replicate 12 0 ++ to16 ramKey
        let m2 := c.aesCbcEnc k1 zeros16 m2plain
        let k2 := aesMp16 c (to16 sk ++ KEY_UPDATE_MAC_C)
        let m3 := to16 (c.cmac k2 (m1 ++ m2))
        let k3 := aesMp16 c (to16 ramKey ++ KEY_UPDATE_ENC_C)
        let cnt4 := le32bytes (bswap32 1 * 16 % 2^32)
        let blk := cnt4.set 3 ((cnt4.getD 3 0) ||| 0x08) ++ List.replicate 12 0
        let m4 := toN 15 s.uid ++ [RAM_KEY_ID * 16 + SECRET_KEY_ID] ++ to16 (c.aesEnc k3 blk)
        let k4 := aesMp16 c (to16 ramKey ++ KEY_UPDATE_MAC_C)
        let m5 := to16 (c.cmac k4 m4)
        (.ok, s, { emptyResp with m1 := m1, m2 := m2, m3 := m3, m4 := m4, m5 := m5 })

/-- Handler `hsmSheInitRnd`: once per startup, derive the seed key from
`SECRET_KEY`, step the persisted `PRNG_SEED` through one AES-CBC block,
persist it, seed `prng_state` with it and derive `prng_key`. -/
def hsmSheInitRnd (c : Crypto) (s : SheState) : HRes :=
  if s.rndInited then (.seqErr, s, emptyResp)
  else
    match hsmReadKey s SECRET_KEY_ID with
    | none => (.keyNotAvail, s, emptyResp)
    | some (_, sk) =>
      let seedKey := aesMp16 c (to16 sk ++ PRNG_SEED_KEY_C)
      match hsmReadKey s PRNG_SEED_ID with
      | none => (.keyNotAvail, s, emptyResp)
      | some (meta, seed) =>
        let newSeed := to16 (c.aesCbcEnc seedKey zeros16 (to16 seed))
        let prngKey := aesMp16 c (to16 sk ++ PRNG_KEY_C)
        (.ok,
         { s with store := storePut s.store PRNG_SEED_ID
                    { meta with id := PRNG_SEED_ID, len := 16 } newSeed,
                  prngState := newSeed, prngKey := prngKey, rndInited := true },
         { emptyResp with status := .ok })

/-- Handler `hsmSheRnd`: require a prior INIT_RND (else `RNG_SEED`), then
step `prng_state` through one AES-CBC block (zero IV) under `prng_key` and
return the new state as the random bytes. -/
def hsmSheRnd (c : Crypto) (s : SheState) : HRes :=
  if s.rndInited = false then (.rngSeed, s, emptyResp)
  else
    let newState := to16 (c.aesCbcEnc s.prngKey zeros16 (to16 s.prngState))
    (.ok, { s with prngState := newState }, { emptyResp with rnd := newState })

/-- Handler `hsmSheExtendSeed`: mix the 16 entropy bytes into `prng_state`
via MP16, then mix them into the persisted seed and store it back. -/
def hsmSheExtendSeed (c : Crypto) (s : SheState) (req : SheRequest) : HRes :=
  if s.rndInited = false then (.rngSeed, s, emptyResp)
  else
    let newState := aesMp16 c (to16 s.prngState ++ to16 req.entropy)
    let s1 := { s with prngState := newState }
    match hsmReadKey s1 PRNG_SEED_ID with
    | none => (.keyNotAvail, s1, emptyResp)
    | some (meta, seed) =>
      let newSeed := aesMp16 c (to16 seed ++ to16 req.entropy)
      (.ok,
       { s1 with store := storePut s1.store PRNG_SEED_ID
                   { meta with id := PRNG_SEED_ID, len := 16 } newSeed },
       { emptyResp with status := .ok })

/-- Handler `hsmSheEncEcb`: truncate to whole blocks, load the key
(missing → `KEY_NOT_AVAILABLE`), AES-ECB encrypt. -/
def hsmSheEncEcb (c : Crypto) (s : SheState) (req : SheRequest) : HRes :=
  let field := req.sz % 2^32 - req.sz % 2^32 % 16
  match hsmReadKey s req.keyId with
  | none => (.keyNotAvail, s, emptyResp)
  | some (_, k) =>
      (.ok, s, { emptyResp with sz := field, data := c.aesEcbEnc (to16 k) (req.data.take field) })

/-- Handler `hsmSheEncCbc`: as ENC_ECB but CBC with the request IV. -/
def hsmSheEncCbc (c : Crypto) (s : SheState) (req : SheRequest) : HRes :=
  let field := req.sz % 2^32 - req.sz % 2^32 % 16
  match hsmReadKey s req.keyId with
  | none => (.keyNotAvail, s, emptyResp)
  | some (_, k) =>
      (.ok, s,
        { emptyResp with
            sz := field
            data := c.aesCbcEnc (to16 k) (to16 req.iv) (req.data.take field) })

/-- Handler `hsmSheDecEcb`: truncate to whole blocks and AES-ECB decrypt. -/
def hsmSheDecEcb (c : Crypto) (s : SheState) (req : SheRequest) : HRes :=
  let field := req.sz % 2^32 - req.sz % 2^32 % 16
  match hsmReadKey s req.keyId with
  | none => (.keyNotAvail, s, emptyResp)
  | some (_, k) =>
      (.ok, s, { emptyResp with sz := field, data := c.aesEcbDec (to16 k) (req.data.take field) })

/-- Handler `hsmSheDecCbc`: as DEC_ECB but CBC with the request IV. -/
def hsmSheDecCbc (c : Crypto) (s : SheState) (req : SheRequest) : HRes :=
  let field := req.sz % 2^32 - req.sz % 2^32 % 16
  match hsmReadKey s req.keyId with
  | none => (.keyNotAvail, s, emptyResp)
  | some (_, k) =>
      (.ok, s,
        { emptyResp with
            sz := field
            data := c.aesCbcDec (to16 k) (to16 req.iv) (req.data.take field) })

/-! ### Dispatcher (`wh_Server_HandleSheRequest`) -/

/-- Error codes the post-dispatch normalisation recognises (the list in
lines 1098–1103 of the source); anything else nonzero becomes
`GENERAL_ERROR`. -/
def recognisedShe : List Rc :=
  [.seqErr, .keyNotAvail, .keyInvalid, .keyEmpty, .noSecureBoot,
   .writeProtected, .keyUpdateErr, .rngSeed, .noDebugging, .busy, .memFailure]

/-- Post-dispatch error normalisation (lines 1097–1105 of the source): a
nonzero handler result that is not a recognised SHE error code becomes
`GENERAL_ERROR`. -/
def normalizeRc (ret : Rc) : Rc :=
  if ret = .ok then .ok
  else if ret ∈ recognisedShe then ret
  else .generalErr

/-- Inner action dispatch (`switch (action)`), default = `WH_ERROR_BADARGS`. -/
def dispatchSheAction (c : Crypto) (s : SheState) (action : Nat) (req : SheRequest) : HRes :=
  if action = WH_SHE_SET_UID then hsmSheSetUid s req
  else if action = WH_SHE_SECURE_BOOT_INIT then hsmSheSecureBootInit s req
  else if action = WH_SHE_SECURE_BOOT_UPDATE then hsmSheSecureBootUpdate s req
  else if action = WH_SHE_SECURE_BOOT_FINISH then hsmSheSecureBootFinish c s
  else if action = WH_SHE_GET_STATUS then hsmSheGetStatus s
  else if action = WH_SHE_LOAD_KEY then hsmSheLoadKey c s req
  else if action = WH_SHE_LOAD_PLAIN_KEY then hsmSheLoadPlainKey s req
  else if action = WH_SHE_EXPORT_RAM_KEY then hsmSheExportRamKey c s
  else if action = WH_SHE_INIT_RND then hsmSheInitRnd c s
  else if action = WH_SHE_RND then hsmSheRnd c s
  else if action = WH_SHE_EXTEND_SEED then hsmSheExtendSeed c s req
  else if action = WH_SHE_ENC_ECB then hsmSheEncEcb c s req
  else if action = WH_SHE_ENC_CBC then hsmSheEncCbc c s req
  else if action = WH_SHE_DEC_ECB then hsmSheDecEcb c s req
  else if action = WH_SHE_DEC_CBC then hsmSheDecCbc c s req
  else (.badArgs, s, emptyResp)

/-- Model of `wh_Server_HandleSheRequest` for non-null arguments (the only
non-zero C return is the NULL-argument `BadArgs`, so the modelled return
value is always 0): sequencing gate, dispatch, error normalisation,
secure-boot failure cleanup, and the final write of `rc`. -/
def wh_Server_HandleSheRequest (c : Crypto) (s : SheState) (action : Nat)
    (req : SheRequest) : Int × SheState × SheResponse :=
  if (s.sbState ≠ .success ∧
        action ≠ WH_SHE_SECURE_BOOT_INIT ∧ action ≠ WH_SHE_SECURE_BOOT_UPDATE ∧
        action ≠ WH_SHE_SECURE_BOOT_FINISH ∧ action ≠ WH_SHE_GET_STATUS ∧
        action ≠ WH_SHE_SET_UID) ∨
     (action ≠ WH_SHE_SET_UID ∧ s.uidSet = false) then
    (0, s, { emptyResp with rc := .seqErr })
  else
    let res := dispatchSheAction c s action req
    let ret2 := normalizeRc res.1
    let s2 := if (action = WH_SHE_SECURE_BOOT_INIT ∨ action = WH_SHE_SECURE_BOOT_UPDATE ∨
                  action = WH_SHE_SECURE_BOOT_FINISH) ∧ ret2 ≠ .ok ∧ ret2 ≠ .noSecureBoot
              then resetSb res.2.1 else res.2.1
    (0, s2, { res.2.2 with rc := ret2 })

/-! ### Shared-memory transport (`wh_transport_mem.c`) -/

/-- One 64-bit control/status register, split into its four `uint16_t`
fields (`union whTransportMemCsr_t`). -/
structure Csr where
  notify : Nat
  len : Nat
  ack : Nat
  wait : Nat
  deriving DecidableEq, Repr

/-- The two shared buffers: request and response CSRs plus their payload
regions (fixed-size byte areas after each CSR). -/
structure Shm where
  req : Csr
  reqData : List Nat
  resp : Csr
  respData : List Nat
  deriving DecidableEq, Repr

/-- Transport context; only the `initialized` flag matters to the
operation guards (the buffer pointers are the `Shm` itself). -/
structure TmCtx where
  inited : Bool
  deriving DecidableEq, Repr

/-- Memcpy of a payload into the front of a region, leaving the tail. -/
def writeBytes (region d : List Nat) : List Nat := d ++ region.drop d.length

/-- Model of `wh_TransportMem_SendRequest`: refuse when uninitialised;
`NotReady` while `req.notify ≠ resp.notify` (previous exchange still
open); else copy the payload, set `req.len`, bump `req.notify` (16-bit)
and publish.  A NULL `data` pointer with nonzero `len` is not modelled
(the claims pass real payloads). -/
def wh_TransportMem_SendRequest (ctx : TmCtx) (shm : Shm) (len : Nat)
    (data : List Nat) : Rc × Shm :=
  if ctx.inited = false then (.badArgs, shm)
  else if shm.req.notify ≠ shm.resp.notify then (.notReady, shm)
  else
    let l := len % 2^16
    let reqData1 := if l ≠ 0 then writeBytes shm.reqData (data.take l) else shm.reqData
    (.ok,
     { shm with reqData := reqData1,
                req := { shm.req with len := l, notify := (shm.req.notify + 1) % 2^16 } })

/-- Model of `wh_TransportMem_RecvRequest`: `NotReady` while the two notify
counters agree; else return `req.len` and that many payload bytes.  The
shared memory is only read. -/
def wh_TransportMem_RecvRequest (ctx : TmCtx) (shm : Shm) : Rc × Nat × List Nat :=
  if ctx.inited = false then (.badArgs, 0, [])
  else if shm.req.notify = shm.resp.notify then (.notReady, 0, [])
  else (.ok, shm.req.len, if shm.req.len ≠ 0 then shm.reqData.take shm.req.len else [])

/-- Model of `wh_TransportMem_SendResponse`: copy the payload, set
`resp.len`, set `resp.notify` to the request's counter and publish (no
NotReady path). -/
def wh_TransportMem_SendResponse (ctx : TmCtx) (shm : Shm) (len : Nat)
    (data : List Nat) : Rc × Shm :=
  if ctx.inited = false then (.badArgs, shm)
  else
    let l := len % 2^16
    let respData1 := if l ≠ 0 then writeBytes shm.respData (data.take l) else shm.respData
    (.ok,
     { shm with respData := respData1,
                resp := { shm.resp with len := l, notify := shm.req.notify } })

/-- Model of `wh_TransportMem_RecvResponse`: `NotReady` while
`resp.notify ≠ req.notify`; else return `resp.len` and that many payload
bytes. -/
def wh_TransportMem_RecvResponse (ctx : TmCtx) (shm : Shm) : Rc × Nat × List Nat :=
  if ctx.inited = false then (.badArgs, 0, [])
  else if shm.resp.notify ≠ shm.req.notify then (.notReady, 0, [])
  else (.ok, shm.resp.len, if shm.resp.len ≠ 0 then shm.respData.take shm.resp.len else [])

/-! ### Lemmas about AES-MP16 -/

theorem padInput_nil : padInput [] = [] := by
  simp [padInput]

theorem padTo16_length (xs : List Nat) (h : xs.length ≤ 16) : (padTo16 xs).length = 16 := by
  simp [padTo16]
  omega

theorem mpStep_length (c : Crypto) (hc : GoodCrypto c) (h b : List Nat)
    (hh : h.length = 16) (hb : b.length = 16) : (mpStep c h b).length = 16 := by
  simp [mpStep, xorB, hc h b, hh, hb]

theorem chunks16Go_congr : ∀ (f g : Nat) (xs : List Nat),
    xs.length ≤ f → xs.length ≤ g → chunks16Go f xs = chunks16Go g xs := by
  intro f
  induction f with
  | zero =>
      intro g xs hf _
      cases xs with
      | nil => cases g <;> rfl
      | cons a as => simp at hf
  | succ f ih =>
      intro g xs hf hg
      cases xs with
      | nil => cases g <;> rfl
      | cons a as =>
          cases g with
          | zero => simp at hg
          | succ g =>
              simp only [chunks16Go]
              congr 1
              apply ih
              · have hd : ((a :: as).drop 16).length = (a :: as).length - 16 := by
                  simp
                simp at hf ⊢
                omega
              · simp at hg ⊢
                omega

theorem chunks16_of_length16 (ys : List Nat) (h : ys.length = 16) : chunks16 ys = [ys] := by
  unfold chunks16
  rw [h]
  cases ys with
  | nil => simp at h
  | cons b bs =>
      rw [show (16 : Nat) = 15 + 1 from rfl]
      simp only [chunks16Go]
      have h1 : (b :: bs).take 16 = b :: bs := List.take_of_length_le (by omega)
      have h2 : (b :: bs).drop 16 = [] := List.drop_eq_nil_of_le (by omega)
      rw [h1, h2]
      rfl

theorem chunks16_append16 (t r : List Nat) (ht : t.length = 16) :
    chunks16 (t ++ r) = t :: chunks16 r := by
  unfold chunks16
  cases t with
  | nil => simp at ht
  | cons b bs =>
      have hlen : ((b :: bs) ++ r).length = 16 + r.length := by
        simp at ht ⊢
        omega
      rw [hlen, show 16 + r.length = (15 + r.length) + 1 from by omega]
      have hcons : (b :: bs) ++ r = b :: (bs ++ r) := rfl
      rw [hcons]
      simp only [chunks16Go]
      have htake : (b :: (bs ++ r)).take 16 = b :: bs := by
        rw [← hcons, ← ht]
        exact List.take_left (b :: bs) r
      have hdrop : (b :: (bs ++ r)).drop 16 = r := by
        rw [← hcons, ← ht]
        exact List.drop_left (b :: bs) r
      rw [htake, hdrop]
      exact congrArg _ (chunks16Go_congr _ _ r (by omega) (le_refl _))

theorem chunks16_padInput_cons (x : Nat) (xs : List Nat) :
    chunks16 (padInput (x :: xs)) =
      padTo16 ((x :: xs).take 16) :: chunks16 (padInput ((x :: xs).drop 16)) := by
  by_cases h16 : (x :: xs).length ≤ 16
  · have hlen1 : 1 ≤ (x :: xs).length := by simp
    have htake : (x :: xs).take 16 = x :: xs := List.take_of_length_le h16
    have hdrop : (x :: xs).drop 16 = [] := List.drop_eq_nil_of_le h16
    have hpad : padInput (x :: xs) = padTo16 (x :: xs) := by
      unfold padInput padTo16
      congr 2
      omega
    have hplen : (padTo16 (x :: xs)).length = 16 := padTo16_length _ h16
    rw [hpad, hdrop, padInput_nil, htake, chunks16_of_length16 _ hplen]
    rfl
  · push_neg at h16
    have htakelen : ((x :: xs).take 16).length = 16 := by
      simp at h16 ⊢
      omega
    have hpt : padTo16 ((x :: xs).take 16) = (x :: xs).take 16 := by
      unfold padTo16
      rw [htakelen]
      simp
    have hsplit : padInput (x :: xs) = (x :: xs).take 16 ++ padInput ((x :: xs).drop 16) := by
      unfold padInput
      rw [← List.append_assoc, List.take_append_drop]
      congr 2
      have hd : ((x :: xs).drop 16).length = (x :: xs).length - 16 := by simp
      rw [hd]
      omega
    rw [hsplit, hpt, chunks16_append16 _ _ htakelen]

theorem mp16Go_eq_spec (c : Crypto) : ∀ (n : Nat) (xs h : List Nat), xs.length ≤ n →
    mp16Go c n h xs = (chunks16 (padInput xs)).foldl (mpStep c) h := by
  intro n
  induction n with
  | zero =>
      intro xs h hf
      cases xs with
      | nil => simp [mp16Go, padInput_nil, chunks16, chunks16Go]
      | cons a as => simp at hf
  | succ n ih =>
      intro xs h hf
      cases xs with
      | nil => simp [mp16Go, padInput_nil, chunks16, chunks16Go]
      | cons a as =>
          rw [chunks16_padInput_cons, List.foldl_cons]
          simp only [mp16Go]
          apply ih
          have hd : ((a :: as).drop 16).length = (a :: as).length - 16 := by simp
          simp only [List.length_cons] at hf ⊢
          rw [hd]
          simp only [List.length_cons]
          omega

theorem aesMp16_eq_spec (c : Crypto) (input : List Nat) : aesMp16 c input = mp16Spec c input :=
  mp16Go_eq_spec c input.length input zeros16 (le_refl _)

theorem mp16Go_length (c : Crypto) (hc : GoodCrypto c) :
    ∀ (n : Nat) (xs h : List Nat), h.length = 16 → (mp16Go c n h xs).length = 16 := by
  intro n
  induction n with
  | zero =>
      intro xs h hh
      cases xs <;> simpa [mp16Go]
  | succ n ih =>
      intro xs h hh
      cases xs with
      | nil => simpa [mp16Go]
      | cons a as =>
          simp only [mp16Go]
          apply ih
          apply mpStep_length c hc _ _ hh
          apply padTo16_length
          simp

theorem aesMp16_length (c : Crypto) (hc : GoodCrypto c) (input : List Nat) :
    (aesMp16 c input).length = 16 :=
  mp16Go_length c hc input.length input zeros16 (by simp [zeros16])

/-- C4: for every non-null input of nonzero length, `wh_AesMp16` succeeds
and returns the 16-byte value given by the specification's
Miyaguchi–Preneel recurrence (`H_0 = 0^128`,
`H_i = AES_Enc(H_(i-1), B_i) XOR B_i XOR H_(i-1)` over the zero-padded
blocks); the model is a pure function, hence deterministic; and it fails
with `BadArgs` exactly when some pointer argument is null or the input
length is zero. -/
theorem C4_aesMp16_follows_spec (c : Crypto) (hc : GoodCrypto c) :
    (∀ input : List Nat, input ≠ [] →
        wh_AesMp16 c (some ()) (some input) (some ()) = .ok (mp16Spec c input) ∧
        (mp16Spec c input).length = 16) ∧
    (∀ (server : Option Unit) (input : Option (List Nat)) (outBuf : Option Unit),
        wh_AesMp16 c server input outBuf = .error .badArgs ↔
          server = none ∨ input = none ∨ outBuf = none ∨ input = some []) := by
  constructor
  · intro input hne
    have hlen : input.length ≠ 0 := by
      simpa using hne
    constructor
    · simp [wh_AesMp16, hlen, aesMp16_eq_spec]
    · rw [← aesMp16_eq_spec]
      exact aesMp16_length c hc input
  · intro server input outBuf
    match server, input, outBuf with
    | none, _, _ => simp [wh_AesMp16]
    | some _, none, _ => simp [wh_AesMp16]
    | some _, some bytes, none => simp [wh_AesMp16]
    | some _, some bytes, some _ =>
        by_cases hb : bytes.length = 0
        · have : bytes = [] := List.length_eq_zero.mp hb
          simp [wh_AesMp16, hb, this]
        · have : bytes ≠ [] := by
            intro h
            exact hb (by simp [h])
          simp [wh_AesMp16, hb, this]

/-- Witness for C4 at a concrete three-byte input under the concrete
crypto instantiation. -/
theorem C4_witness :
    wh_AesMp16 trivCrypto (some ()) (some [1, 2, 3]) (some ()) =
        .ok (mp16Spec trivCrypto [1, 2, 3]) ∧
      (mp16Spec trivCrypto [1, 2, 3]).length = 16 :=
  (C4_aesMp16_follows_spec trivCrypto trivCrypto_good).1 [1, 2, 3] (by decide)

/-! ### Transport claims -/

/-- C8: from a quiescent transport (`req.notify = resp.notify`), a
successful `SendRequest` of `len = data.length` bytes followed by
`RecvRequest` returns exactly `len` and the same bytes; symmetrically a
`SendResponse` followed by `RecvResponse` round-trips the response
bytes. -/
theorem C8_transport_roundtrip (ctx : TmCtx) (shm : Shm) (data : List Nat)
    (hinit : ctx.inited = true)
    (hq : shm.req.notify = shm.resp.notify)
    (hn : shm.req.notify < 2^16)
    (hlen : data.length < 2^16)
    (hfit : data.length ≤ shm.reqData.length)
    (hfit2 : data.length ≤ shm.respData.length) :
    ((wh_TransportMem_SendRequest ctx shm data.length data).1 = .ok ∧
      wh_TransportMem_RecvRequest ctx (wh_TransportMem_SendRequest ctx shm data.length data).2 =
        (.ok, data.length, data)) ∧
    ((wh_TransportMem_SendResponse ctx shm data.length data).1 = .ok ∧
      wh_TransportMem_RecvResponse ctx (wh_TransportMem_SendResponse ctx shm data.length data).2 =
        (.ok, data.length, data)) := by
  have hn2 : shm.resp.notify < 65536 := by
    rw [← hq]
    norm_num at hn
    exact hn
  have hlen2 : data.length < 65536 := by
    norm_num at hlen
    exact hlen
  have hmod : data.length % 65536 = data.length := Nat.mod_eq_of_lt hlen2
  have hbump : ¬ (shm.resp.notify + 1) % 65536 = shm.resp.notify := by
    omega
  by_cases hz : data.length = 0
  · have hdata : data = [] := List.length_eq_zero.mp hz
    subst hdata
    refine ⟨⟨?_, ?_⟩, ?_, ?_⟩ <;>
      simp [wh_TransportMem_SendRequest, wh_TransportMem_RecvRequest,
            wh_TransportMem_SendResponse, wh_TransportMem_RecvResponse,
            hinit, hq, hbump]
  · have htake : data.take data.length = data := List.take_length data
    refine ⟨⟨?_, ?_⟩, ?_, ?_⟩
    · simp [wh_TransportMem_SendRequest, hinit, hq]
    · simp [wh_TransportMem_SendRequest, wh_TransportMem_RecvRequest,
            hinit, hq, hbump, hmod, hz, writeBytes, htake]
    · simp [wh_TransportMem_SendResponse, hinit]
    · simp [wh_TransportMem_SendResponse, wh_TransportMem_RecvResponse,
            hinit, hmod, hz, writeBytes, htake]

/-- Witness for C8 with a concrete transport state and the 4-byte payload
of the specification's end-to-end scenario. -/
theorem C8_witness :
    ((wh_TransportMem_SendRequest { inited := true }
        { req := { notify := 0, len := 0, ack := 0, wait := 0 },
          reqData := List.replicate 8 0,
          resp := { notify := 0, len := 0, ack := 0, wait := 0 },
          respData := List.replicate 8 0 } 4 [0xde, 0xad, 0xbe, 0xef]).1 = .ok ∧
      wh_TransportMem_RecvRequest { inited := true }
        (wh_TransportMem_SendRequest { inited := true }
          { req := { notify := 0, len := 0, ack := 0, wait := 0 },
            reqData := List.replicate 8 0,
            resp := { notify := 0, len := 0, ack := 0, wait := 0 },
            respData := List.replicate 8 0 } 4 [0xde, 0xad, 0xbe, 0xef]).2 =
        (.ok, 4, [0xde, 0xad, 0xbe, 0xef])) ∧
    ((wh_TransportMem_SendResponse { inited := true }
        { req := { notify := 0, len := 0, ack := 0, wait := 0 },
          reqData := List.replicate 8 0,
          resp := { notify := 0, len := 0, ack := 0, wait := 0 },
          respData := List.replicate 8 0 } 4 [0xde, 0xad, 0xbe, 0xef]).1 = .ok ∧
      wh_TransportMem_RecvResponse { inited := true }
        (wh_TransportMem_SendResponse { inited := true }
          { req := { notify := 0, len := 0, ack := 0, wait := 0 },
            reqData := List.replicate 8 0,
            resp := { notify := 0, len := 0, ack := 0, wait := 0 },
            respData := List.replicate 8 0 } 4 [0xde, 0xad, 0xbe, 0xef]).2 =
        (.ok, 4, [0xde, 0xad, 0xbe, 0xef])) :=
  C8_transport_roundtrip { inited := true } _ [0xde, 0xad, 0xbe, 0xef]
    rfl rfl (by decide) (by decide) (by decide) (by decide)

/-- C9: for an initialised context, `SendRequest` returns `NotReady`
exactly when `req.notify ≠ resp.notify`, `RecvRequest` exactly when the
counters agree, and `RecvResponse` exactly when `resp.notify ≠
req.notify`; a `NotReady` `SendRequest` leaves the shared state unchanged,
so repeating it returns `NotReady` with no state change (the receive
operations never write the shared state in the first place). -/
theorem C9_transport_notReady (ctx : TmCtx) (shm : Shm) (len : Nat) (data : List Nat)
    (hinit : ctx.inited = true) :
    ((wh_TransportMem_SendRequest ctx shm len data).1 = .notReady ↔
        shm.req.notify ≠ shm.resp.notify) ∧
    ((wh_TransportMem_RecvRequest ctx shm).1 = .notReady ↔
        shm.req.notify = shm.resp.notify) ∧
    ((wh_TransportMem_RecvResponse ctx shm).1 = .notReady ↔
        shm.resp.notify ≠ shm.req.notify) ∧
    ((wh_TransportMem_SendRequest ctx shm len data).1 = .notReady →
        (wh_TransportMem_SendRequest ctx shm len data).2 = shm ∧
        wh_TransportMem_SendRequest ctx (wh_TransportMem_SendRequest ctx shm len data).2 len data =
          wh_TransportMem_SendRequest ctx shm len data) := by
  by_cases hns : shm.req.notify = shm.resp.notify
  · refine ⟨?_, ?_, ?_, ?_⟩ <;>
      simp [wh_TransportMem_SendRequest, wh_TransportMem_RecvRequest,
            wh_TransportMem_RecvResponse, hinit, hns]
  · refine ⟨?_, ?_, ?_, ?_⟩ <;>
      simp [wh_TransportMem_SendRequest, wh_TransportMem_RecvRequest,
            wh_TransportMem_RecvResponse, hinit, hns, Ne.symm hns]

/-- Witness for C9 with a concrete non-quiescent transport state (an
outstanding request), showing the `NotReady` cases concretely. -/
theorem C9_witness :
    ((wh_TransportMem_SendRequest { inited := true }
        { req := { notify := 1, len := 4, ack := 0, wait := 0 },
          reqData := List.replicate 8 0,
          resp := { notify := 0, len := 0, ack := 0, wait := 0 },
          respData := List.replicate 8 0 } 2 [1, 2]).1 = .notReady ↔
        (1 : Nat) ≠ 0) ∧
    ((wh_TransportMem_RecvRequest { inited := true }
        { req := { notify := 1, len := 4, ack := 0, wait := 0 },
          reqData := List.replicate 8 0,
          resp := { notify := 0, len := 0, ack := 0, wait := 0 },
          respData := List.replicate 8 0 }).1 = .notReady ↔ (1 : Nat) = 0) ∧
    ((wh_TransportMem_RecvResponse { inited := true }
        { req := { notify := 1, len := 4, ack := 0, wait := 0 },
          reqData := List.replicate 8 0,
          resp := { notify := 0, len := 0, ack := 0, wait := 0 },
          respData := List.replicate 8 0 }).1 = .notReady ↔ (0 : Nat) ≠ 1) ∧
    ((wh_TransportMem_SendRequest { inited := true }
        { req := { notify := 1, len := 4, ack := 0, wait := 0 },
          reqData := List.replicate 8 0,
          resp := { notify := 0, len := 0, ack := 0, wait := 0 },
          respData := List.replicate 8 0 } 2 [1, 2]).1 = .notReady →
      (wh_TransportMem_SendRequest { inited := true }
        { req := { notify := 1, len := 4, ack := 0, wait := 0 },
          reqData := List.replicate 8 0,
          resp := { notify := 0, len := 0, ack := 0, wait := 0 },
          respData := List.replicate 8 0 } 2 [1, 2]).2 =
        { req := { notify := 1, len := 4, ack := 0, wait := 0 },
          reqData := List.replicate 8 0,
          resp := { notify := 0, len := 0, ack := 0, wait := 0 },
          respData := List.replicate 8 0 } ∧
      wh_TransportMem_SendRequest { inited := true }
        (wh_TransportMem_SendRequest { inited := true }
          { req := { notify := 1, len := 4, ack := 0, wait := 0 },
            reqData := List.replicate 8 0,
            resp := { notify := 0, len := 0, ack := 0, wait := 0 },
            respData := List.replicate 8 0 } 2 [1, 2]).2 2 [1, 2] =
        wh_TransportMem_SendRequest { inited := true }
          { req := { notify := 1, len := 4, ack := 0, wait := 0 },
            reqData := List.replicate 8 0,
            resp := { notify := 0, len := 0, ack := 0, wait := 0 },
            respData := List.replicate 8 0 } 2 [1, 2]) :=
  C9_transport_notReady { inited := true } _ 2 [1, 2] rfl

/-! ### Engine lemmas -/

/-- Secure-boot size invariant: the received byte total never exceeds the
announced bootloader size, and in the INIT phase nothing has been
received yet (the auxiliary conjunct makes the invariant inductive). -/
def SheBlInv (s : SheState) : Prop :=
  s.blSizeReceived ≤ s.blSize ∧ (s.sbState = .init → s.blSizeReceived = 0)

/-- Engine state at process startup: all zero / INIT. -/
def sheInitialState : SheState :=
  { uid := List.replicate 15 0, uidSet := false, sbState := .init,
    blSize := 0, blSizeReceived := 0, cmacKeyFound := false,
    ramKeyPlain := false, rndInited := false,
    prngState := zeros16, prngKey := zeros16,
    cmacKey := zeros16, cmacMsg := [], store := [] }

theorem SheBlInv_initial : SheBlInv sheInitialState := by
  constructor <;> simp [sheInitialState]

theorem SheBlInv_resetSb (s : SheState) : SheBlInv (resetSb s) := by
  constructor <;> simp [resetSb]

theorem SheBlInv_of_fields (s t : SheState)
    (h1 : t.blSize = s.blSize) (h2 : t.blSizeReceived = s.blSizeReceived)
    (h3 : t.sbState = s.sbState) (hinv : SheBlInv s) : SheBlInv t := by
  unfold SheBlInv at *
  rw [h1, h2, h3]
  exact hinv

theorem hsmSheSetUid_fields (s : SheState) (req : SheRequest) :
    (hsmSheSetUid s req).2.1.blSize = s.blSize ∧
    (hsmSheSetUid s req).2.1.blSizeReceived = s.blSizeReceived ∧
    (hsmSheSetUid s req).2.1.sbState = s.sbState := by
  unfold hsmSheSetUid
  split <;> simp

theorem hsmSheGetStatus_fields (s : SheState) :
    (hsmSheGetStatus s).2.1.blSize = s.blSize ∧
    (hsmSheGetStatus s).2.1.blSizeReceived = s.blSizeReceived ∧
    (hsmSheGetStatus s).2.1.sbState = s.sbState := by
  unfold hsmSheGetStatus
  simp

theorem hsmSheLoadKey_fields (c : Crypto) (s : SheState) (req : SheRequest) :
    (hsmSheLoadKey c s req).2.1.blSize = s.blSize ∧
    (hsmSheLoadKey c s req).2.1.blSizeReceived = s.blSizeReceived ∧
    (hsmSheLoadKey c s req).2.1.sbState = s.sbState := by
  simp only [hsmSheLoadKey]
  repeat' split
  all_goals simp [storePut]

theorem hsmSheLoadPlainKey_fields (s : SheState) (req : SheRequest) :
    (hsmSheLoadPlainKey s req).2.1.blSize = s.blSize ∧
    (hsmSheLoadPlainKey s req).2.1.blSizeReceived = s.blSizeReceived ∧
    (hsmSheLoadPlainKey s req).2.1.sbState = s.sbState := by
  unfold hsmSheLoadPlainKey
  simp

theorem hsmSheExportRamKey_fields (c : Crypto) (s : SheState) :
    (hsmSheExportRamKey c s).2.1.blSize = s.blSize ∧
    (hsmSheExportRamKey c s).2.1.blSizeReceived = s.blSizeReceived ∧
    (hsmSheExportRamKey c s).2.1.sbState = s.sbState := by
  simp only [hsmSheExportRamKey]
  repeat' split
  all_goals simp [storePut]

theorem hsmSheInitRnd_fields (c : Crypto) (s : SheState) :
    (hsmSheInitRnd c s).2.1.blSize = s.blSize ∧
    (hsmSheInitRnd c s).2.1.blSizeReceived = s.blSizeReceived ∧
    (hsmSheInitRnd c s).2.1.sbState = s.sbState := by
  simp only [hsmSheInitRnd]
  repeat' split
  all_goals simp [storePut]

theorem hsmSheRnd_fields (c : Crypto) (s : SheState) :
    (hsmSheRnd c s).2.1.blSize = s.blSize ∧
    (hsmSheRnd c s).2.1.blSizeReceived = s.blSizeReceived ∧
    (hsmSheRnd c s).2.1.sbState = s.sbState := by
  unfold hsmSheRnd
  split <;> simp

theorem hsmSheExtendSeed_fields (c : Crypto) (s : SheState) (req : SheRequest) :
    (hsmSheExtendSeed c s req).2.1.blSize = s.blSize ∧
    (hsmSheExtendSeed c s req).2.1.blSizeReceived = s.blSizeReceived ∧
    (hsmSheExtendSeed c s req).2.1.sbState = s.sbState := by
  simp only [hsmSheExtendSeed]
  repeat' split
  all_goals simp [storePut]

theorem hsmSheEncEcb_fields (c : Crypto) (s : SheState) (req : SheRequest) :
    (hsmSheEncEcb c s req).2.1.blSize = s.blSize ∧
    (hsmSheEncEcb c s req).2.1.blSizeReceived = s.blSizeReceived ∧
    (hsmSheEncEcb c s req).2.1.sbState = s.sbState := by
  simp only [hsmSheEncEcb]
  repeat' split
  all_goals simp [storePut]

theorem hsmSheEncCbc_fields (c : Crypto) (s : SheState) (req : SheRequest) :
    (hsmSheEncCbc c s req).2.1.blSize = s.blSize ∧
    (hsmSheEncCbc c s req).2.1.blSizeReceived = s.blSizeReceived ∧
    (hsmSheEncCbc c s req).2.1.sbState = s.sbState := by
  simp only [hsmSheEncCbc]
  repeat' split
  all_goals simp [storePut]

theorem hsmSheDecEcb_fields (c : Crypto) (s : SheState) (req : SheRequest) :
    (hsmSheDecEcb c s req).2.1.blSize = s.blSize ∧
    (hsmSheDecEcb c s req).2.1.blSizeReceived = s.blSizeReceived ∧
    (hsmSheDecEcb c s req).2.1.sbState = s.sbState := by
  simp only [hsmSheDecEcb]
  repeat' split
  all_goals simp [storePut]

theorem hsmSheDecCbc_fields (c : Crypto) (s : SheState) (req : SheRequest) :
    (hsmSheDecCbc c s req).2.1.blSize = s.blSize ∧
    (hsmSheDecCbc c s req).2.1.blSizeReceived = s.blSizeReceived ∧
    (hsmSheDecCbc c s req).2.1.sbState = s.sbState := by
  simp only [hsmSheDecCbc]
  repeat' split
  all_goals simp [storePut]

theorem hsmSheSecureBootInit_inv (s : SheState) (req : SheRequest)
    (hinv : SheBlInv s) : SheBlInv (hsmSheSecureBootInit s req).2.1 := by
  simp only [hsmSheSecureBootInit]
  split
  · exact hinv
  · rename_i hst
    have hz : s.blSizeReceived = 0 := hinv.2 (by simpa using hst)
    split
    · constructor <;> simp [hz]
    · constructor <;> simp [hz]

theorem hsmSheSecureBootUpdate_inv (s : SheState) (req : SheRequest)
    (hinv : SheBlInv s) :
    SheBlInv (hsmSheSecureBootUpdate s req).2.1 ∨
      ((hsmSheSecureBootUpdate s req).1 ≠ .ok ∧
       (hsmSheSecureBootUpdate s req).1 ≠ .noSecureBoot) := by
  simp only [hsmSheSecureBootUpdate]
  split
  · exact Or.inl hinv
  · rename_i hupd
    split
    · exact Or.inr (by constructor <;> simp)
    · rename_i hle
      left
      split <;> rename_i hfin
      · refine ⟨by simp_all, by intro hini; simp_all⟩
      · refine ⟨by simp_all, by intro hini; simp_all⟩

theorem hsmSheSecureBootFinish_inv (c : Crypto) (s : SheState)
    (hinv : SheBlInv s) : SheBlInv (hsmSheSecureBootFinish c s).2.1 := by
  simp only [hsmSheSecureBootFinish]
  split
  · exact hinv
  · split
    · exact hinv
    · split
      · exact ⟨hinv.1, by simp⟩
      · exact ⟨hinv.1, by simp⟩

theorem normalizeRc_ne (ret : Rc) :
    (ret ≠ .ok → normalizeRc ret ≠ .ok) ∧
    (normalizeRc ret = .noSecureBoot → ret = .noSecureBoot) := by
  cases ret <;> simp [normalizeRc, recognisedShe]

theorem dispatch_eq_setUid (c : Crypto) (s : SheState) (req : SheRequest) :
    dispatchSheAction c s WH_SHE_SET_UID req = hsmSheSetUid s req := by
  simp [dispatchSheAction]

theorem dispatch_eq_sbInit (c : Crypto) (s : SheState) (req : SheRequest) :
    dispatchSheAction c s WH_SHE_SECURE_BOOT_INIT req = hsmSheSecureBootInit s req := by
  simp [dispatchSheAction, WH_SHE_SET_UID, WH_SHE_SECURE_BOOT_INIT]

theorem dispatch_eq_sbUpdate (c : Crypto) (s : SheState) (req : SheRequest) :
    dispatchSheAction c s WH_SHE_SECURE_BOOT_UPDATE req = hsmSheSecureBootUpdate s req := by
  simp [dispatchSheAction, WH_SHE_SET_UID, WH_SHE_SECURE_BOOT_INIT,
        WH_SHE_SECURE_BOOT_UPDATE]

theorem dispatch_eq_sbFinish (c : Crypto) (s : SheState) (req : SheRequest) :
    dispatchSheAction c s WH_SHE_SECURE_BOOT_FINISH req = hsmSheSecureBootFinish c s := by
  simp [dispatchSheAction, WH_SHE_SET_UID, WH_SHE_SECURE_BOOT_INIT,
        WH_SHE_SECURE_BOOT_UPDATE, WH_SHE_SECURE_BOOT_FINISH]

theorem dispatch_eq_getStatus (c : Crypto) (s : SheState) (req : SheRequest) :
    dispatchSheAction c s WH_SHE_GET_STATUS req = hsmSheGetStatus s := by
  simp [dispatchSheAction, WH_SHE_SET_UID, WH_SHE_SECURE_BOOT_INIT,
        WH_SHE_SECURE_BOOT_UPDATE, WH_SHE_SECURE_BOOT_FINISH, WH_SHE_GET_STATUS]

theorem dispatch_eq_loadKey (c : Crypto) (s : SheState) (req : SheRequest) :
    dispatchSheAction c s WH_SHE_LOAD_KEY req = hsmSheLoadKey c s req := by
  simp [dispatchSheAction, WH_SHE_SET_UID, WH_SHE_SECURE_BOOT_INIT,
        WH_SHE_SECURE_BOOT_UPDATE, WH_SHE_SECURE_BOOT_FINISH, WH_SHE_GET_STATUS,
        WH_SHE_LOAD_KEY]

theorem dispatch_eq_loadPlainKey (c : Crypto) (s : SheState) (req : SheRequest) :
    dispatchSheAction c s WH_SHE_LOAD_PLAIN_KEY req = hsmSheLoadPlainKey s req := by
  simp [dispatchSheAction, WH_SHE_SET_UID, WH_SHE_SECURE_BOOT_INIT,
        WH_SHE_SECURE_BOOT_UPDATE, WH_SHE_SECURE_BOOT_FINISH, WH_SHE_GET_STATUS,
        WH_SHE_LOAD_KEY, WH_SHE_LOAD_PLAIN_KEY]

theorem dispatch_eq_exportRamKey (c : Crypto) (s : SheState) (req : SheRequest) :
    dispatchSheAction c s WH_SHE_EXPORT_RAM_KEY req = hsmSheExportRamKey c s := by
  simp [dispatchSheAction, WH_SHE_SET_UID, WH_SHE_SECURE_BOOT_INIT,
        WH_SHE_SECURE_BOOT_UPDATE, WH_SHE_SECURE_BOOT_FINISH, WH_SHE_GET_STATUS,
        WH_SHE_LOAD_KEY, WH_SHE_LOAD_PLAIN_KEY, WH_SHE_EXPORT_RAM_KEY]

theorem dispatch_eq_initRnd (c : Crypto) (s : SheState) (req : SheRequest) :
    dispatchSheAction c s WH_SHE_INIT_RND req = hsmSheInitRnd c s := by
  simp [dispatchSheAction, WH_SHE_SET_UID, WH_SHE_SECURE_BOOT_INIT,
        WH_SHE_SECURE_BOOT_UPDATE, WH_SHE_SECURE_BOOT_FINISH, WH_SHE_GET_STATUS,
        WH_SHE_LOAD_KEY, WH_SHE_LOAD_PLAIN_KEY, WH_SHE_EXPORT_RAM_KEY, WH_SHE_INIT_RND]

theorem dispatch_eq_rnd (c : Crypto) (s : SheState) (req : SheRequest) :
    dispatchSheAction c s WH_SHE_RND req = hsmSheRnd c s := by
  simp [dispatchSheAction, WH_SHE_SET_UID, WH_SHE_SECURE_BOOT_INIT,
        WH_SHE_SECURE_BOOT_UPDATE, WH_SHE_SECURE_BOOT_FINISH, WH_SHE_GET_STATUS,
        WH_SHE_LOAD_KEY, WH_SHE_LOAD_PLAIN_KEY, WH_SHE_EXPORT_RAM_KEY, WH_SHE_INIT_RND,
        WH_SHE_RND]

theorem dispatch_eq_extendSeed (c : Crypto) (s : SheState) (req : SheRequest) :
    dispatchSheAction c s WH_SHE_EXTEND_SEED req = hsmSheExtendSeed c s req := by
  simp [dispatchSheAction, WH_SHE_SET_UID, WH_SHE_SECURE_BOOT_INIT,
        WH_SHE_SECURE_BOOT_UPDATE, WH_SHE_SECURE_BOOT_FINISH, WH_SHE_GET_STATUS,
        WH_SHE_LOAD_KEY, WH_SHE_LOAD_PLAIN_KEY, WH_SHE_EXPORT_RAM_KEY, WH_SHE_INIT_RND,
        WH_SHE_RND, WH_SHE_EXTEND_SEED]

theorem dispatch_eq_encEcb (c : Crypto) (s : SheState) (req : SheRequest) :
    dispatchSheAction c s WH_SHE_ENC_ECB req = hsmSheEncEcb c s req := by
  simp [dispatchSheAction, WH_SHE_SET_UID, WH_SHE_SECURE_BOOT_INIT,
        WH_SHE_SECURE_BOOT_UPDATE, WH_SHE_SECURE_BOOT_FINISH, WH_SHE_GET_STATUS,
        WH_SHE_LOAD_KEY, WH_SHE_LOAD_PLAIN_KEY, WH_SHE_EXPORT_RAM_KEY, WH_SHE_INIT_RND,
        WH_SHE_RND, WH_SHE_EXTEND_SEED, WH_SHE_ENC_ECB]

theorem dispatch_eq_encCbc (c : Crypto) (s : SheState) (req : SheRequest) :
    dispatchSheAction c s WH_SHE_ENC_CBC req = hsmSheEncCbc c s req := by
  simp [dispatchSheAction, WH_SHE_SET_UID, WH_SHE_SECURE_BOOT_INIT,
        WH_SHE_SECURE_BOOT_UPDATE, WH_SHE_SECURE_BOOT_FINISH, WH_SHE_GET_STATUS,
        WH_SHE_LOAD_KEY, WH_SHE_LOAD_PLAIN_KEY, WH_SHE_EXPORT_RAM_KEY, WH_SHE_INIT_RND,
        WH_SHE_RND, WH_SHE_EXTEND_SEED, WH_SHE_ENC_ECB, WH_SHE_ENC_CBC]

theorem dispatch_eq_decEcb (c : Crypto) (s : SheState) (req : SheRequest) :
    dispatchSheAction c s WH_SHE_DEC_ECB req = hsmSheDecEcb c s req := by
  simp [dispatchSheAction, WH_SHE_SET_UID, WH_SHE_SECURE_BOOT_INIT,
        WH_SHE_SECURE_BOOT_UPDATE, WH_SHE_SECURE_BOOT_FINISH, WH_SHE_GET_STATUS,
        WH_SHE_LOAD_KEY, WH_SHE_LOAD_PLAIN_KEY, WH_SHE_EXPORT_RAM_KEY, WH_SHE_INIT_RND,
        WH_SHE_RND, WH_SHE_EXTEND_SEED, WH_SHE_ENC_ECB, WH_SHE_ENC_CBC, WH_SHE_DEC_ECB]

theorem dispatch_eq_decCbc (c : Crypto) (s : SheState) (req : SheRequest) :
    dispatchSheAction c s WH_SHE_DEC_CBC req = hsmSheDecCbc c s req := by
  simp [dispatchSheAction, WH_SHE_SET_UID, WH_SHE_SECURE_BOOT_INIT,
        WH_SHE_SECURE_BOOT_UPDATE, WH_SHE_SECURE_BOOT_FINISH, WH_SHE_GET_STATUS,
        WH_SHE_LOAD_KEY, WH_SHE_LOAD_PLAIN_KEY, WH_SHE_EXPORT_RAM_KEY, WH_SHE_INIT_RND,
        WH_SHE_RND, WH_SHE_EXTEND_SEED, WH_SHE_ENC_ECB, WH_SHE_ENC_CBC, WH_SHE_DEC_ECB,
        WH_SHE_DEC_CBC]

theorem dispatch_eq_default (c : Crypto) (s : SheState) (action : Nat) (req : SheRequest)
    (h1 : action ≠ WH_SHE_SET_UID) (h2 : action ≠ WH_SHE_SECURE_BOOT_INIT)
    (h3 : action ≠ WH_SHE_SECURE_BOOT_UPDATE) (h4 : action ≠ WH_SHE_SECURE_BOOT_FINISH)
    (h5 : action ≠ WH_SHE_GET_STATUS) (h6 : action ≠ WH_SHE_LOAD_KEY)
    (h7 : action ≠ WH_SHE_LOAD_PLAIN_KEY) (h8 : action ≠ WH_SHE_EXPORT_RAM_KEY)
    (h9 : action ≠ WH_SHE_INIT_RND) (h10 : action ≠ WH_SHE_RND)
    (h11 : action ≠ WH_SHE_EXTEND_SEED) (h12 : action ≠ WH_SHE_ENC_ECB)
    (h13 : action ≠ WH_SHE_ENC_CBC) (h14 : action ≠ WH_SHE_DEC_ECB)
    (h15 : action ≠ WH_SHE_DEC_CBC) :
    dispatchSheAction c s action req = (.badArgs, s, emptyResp) := by
  unfold dispatchSheAction
  rw [if_neg h1, if_neg h2, if_neg h3, if_neg h4, if_neg h5, if_neg h6, if_neg h7,
      if_neg h8, if_neg h9, if_neg h10, if_neg h11, if_neg h12, if_neg h13,
      if_neg h14, if_neg h15]

theorem dispatchSheAction_inv (c : Crypto) (s : SheState) (action : Nat) (req : SheRequest)
    (hinv : SheBlInv s) :
    SheBlInv (dispatchSheAction c s action req).2.1 ∨
      ((dispatchSheAction c s action req).1 ≠ .ok ∧
       (dispatchSheAction c s action req).1 ≠ .noSecureBoot ∧
       (action = WH_SHE_SECURE_BOOT_INIT ∨ action = WH_SHE_SECURE_BOOT_UPDATE ∨
        action = WH_SHE_SECURE_BOOT_FINISH)) := by
  by_cases h1 : action = WH_SHE_SET_UID
  · subst h1
    rw [dispatch_eq_setUid]
    exact Or.inl (SheBlInv_of_fields s _ (hsmSheSetUid_fields s req).1
      (hsmSheSetUid_fields s req).2.1 (hsmSheSetUid_fields s req).2.2 hinv)
  by_cases h2 : action = WH_SHE_SECURE_BOOT_INIT
  · subst h2
    rw [dispatch_eq_sbInit]
    exact Or.inl (hsmSheSecureBootInit_inv s req hinv)
  by_cases h3 : action = WH_SHE_SECURE_BOOT_UPDATE
  · subst h3
    rw [dispatch_eq_sbUpdate]
    rcases hsmSheSecureBootUpdate_inv s req hinv with h | ⟨hne, hnsb⟩
    · exact Or.inl h
    · exact Or.inr ⟨hne, hnsb, Or.inr (Or.inl rfl)⟩
  by_cases h4 : action = WH_SHE_SECURE_BOOT_FINISH
  · subst h4
    rw [dispatch_eq_sbFinish]
    exact Or.inl (hsmSheSecureBootFinish_inv c s hinv)
  by_cases h5 : action = WH_SHE_GET_STATUS
  · subst h5
    rw [dispatch_eq_getStatus]
    exact Or.inl (SheBlInv_of_fields s _ (hsmSheGetStatus_fields s).1
      (hsmSheGetStatus_fields s).2.1 (hsmSheGetStatus_fields s).2.2 hinv)
  by_cases h6 : action = WH_SHE_LOAD_KEY
  · subst h6
    rw [dispatch_eq_loadKey]
    exact Or.inl (SheBlInv_of_fields s _ (hsmSheLoadKey_fields c s req).1
      (hsmSheLoadKey_fields c s req).2.1 (hsmSheLoadKey_fields c s req).2.2 hinv)
  by_cases h7 : action = WH_SHE_LOAD_PLAIN_KEY
  · subst h7
    rw [dispatch_eq_loadPlainKey]
    exact Or.inl (SheBlInv_of_fields s _ (hsmSheLoadPlainKey_fields s req).1
      (hsmSheLoadPlainKey_fields s req).2.1 (hsmSheLoadPlainKey_fields s req).2.2 hinv)
  by_cases h8 : action = WH_SHE_EXPORT_RAM_KEY
  · subst h8
    rw [dispatch_eq_exportRamKey]
    exact Or.inl (SheBlInv_of_fields s _ (hsmSheExportRamKey_fields c s).1
      (hsmSheExportRamKey_fields c s).2.1 (hsmSheExportRamKey_fields c s).2.2 hinv)
  by_cases h9 : action = WH_SHE_INIT_RND
  · subst h9
    rw [dispatch_eq_initRnd]
    exact Or.inl (SheBlInv_of_fields s _ (hsmSheInitRnd_fields c s).1
      (hsmSheInitRnd_fields c s).2.1 (hsmSheInitRnd_fields c s).2.2 hinv)
  by_cases h10 : action = WH_SHE_RND
  · subst h10
    rw [dispatch_eq_rnd]
    exact Or.inl (SheBlInv_of_fields s _ (hsmSheRnd_fields c s).1
      (hsmSheRnd_fields c s).2.1 (hsmSheRnd_fields c s).2.2 hinv)
  by_cases h11 : action = WH_SHE_EXTEND_SEED
  · subst h11
    rw [dispatch_eq_extendSeed]
    exact Or.inl (SheBlInv_of_fields s _ (hsmSheExtendSeed_fields c s req).1
      (hsmSheExtendSeed_fields c s req).2.1 (hsmSheExtendSeed_fields c s req).2.2 hinv)
  by_cases h12 : action = WH_SHE_ENC_ECB
  · subst h12
    rw [dispatch_eq_encEcb]
    exact Or.inl (SheBlInv_of_fields s _ (hsmSheEncEcb_fields c s req).1
      (hsmSheEncEcb_fields c s req).2.1 (hsmSheEncEcb_fields c s req).2.2 hinv)
  by_cases h13 : action = WH_SHE_ENC_CBC
  · subst h13
    rw [dispatch_eq_encCbc]
    exact Or.inl (SheBlInv_of_fields s _ (hsmSheEncCbc_fields c s req).1
      (hsmSheEncCbc_fields c s req).2.1 (hsmSheEncCbc_fields c s req).2.2 hinv)
  by_cases h14 : action = WH_SHE_DEC_ECB
  · subst h14
    rw [dispatch_eq_decEcb]
    exact Or.inl (SheBlInv_of_fields s _ (hsmSheDecEcb_fields c s req).1
      (hsmSheDecEcb_fields c s req).2.1 (hsmSheDecEcb_fields c s req).2.2 hinv)
  by_cases h15 : action = WH_SHE_DEC_CBC
  · subst h15
    rw [dispatch_eq_decCbc]
    exact Or.inl (SheBlInv_of_fields s _ (hsmSheDecCbc_fields c s req).1
      (hsmSheDecCbc_fields c s req).2.1 (hsmSheDecCbc_fields c s req).2.2 hinv)
  rw [dispatch_eq_default c s action req h1 h2 h3 h4 h5 h6 h7 h8 h9 h10 h11 h12 h13 h14 h15]
  exact Or.inl hinv

/-- C6: a SECURE_BOOT_UPDATE whose chunk pushes the received total past the
announced bootloader size answers `SEQUENCE_ERROR` and leaves, on return
from the dispatcher, `sb_state = INIT` with `bl_size`, `bl_size_received`
and `cmac_key_found` cleared; moreover `bl_size_received ≤ bl_size` (with
the auxiliary INIT conjunct) is an invariant of every dispatcher call and
holds in the startup state, so it holds whenever the handler is not
executing. -/
theorem C6_secure_boot_size (c : Crypto) :
    (∀ (s : SheState) (req : SheRequest),
      s.uidSet = true → s.sbState = .update →
      s.blSize < (s.blSizeReceived + req.sz % 2^32) % 2^32 →
      (wh_Server_HandleSheRequest c s WH_SHE_SECURE_BOOT_UPDATE req).2.2.rc = .seqErr ∧
      (wh_Server_HandleSheRequest c s WH_SHE_SECURE_BOOT_UPDATE req).2.1 = resetSb s) ∧
    (∀ (s : SheState) (action : Nat) (req : SheRequest),
      SheBlInv s → SheBlInv (wh_Server_HandleSheRequest c s action req).2.1) ∧
    SheBlInv sheInitialState := by
  refine ⟨?_, ?_, SheBlInv_initial⟩
  · intro s req huid hsb hov
    simp only [wh_Server_HandleSheRequest, dispatchSheAction, hsmSheSecureBootUpdate,
               normalizeRc, WH_SHE_SET_UID, WH_SHE_SECURE_BOOT_INIT,
               WH_SHE_SECURE_BOOT_UPDATE, WH_SHE_SECURE_BOOT_FINISH, WH_SHE_GET_STATUS,
               huid, hsb, hov, recognisedShe, resetSb]
    norm_num
    constructor <;> simp [emptyResp]
  · intro s action req hinv
    by_cases hg : ((s.sbState ≠ SbState.success ∧
        action ≠ WH_SHE_SECURE_BOOT_INIT ∧ action ≠ WH_SHE_SECURE_BOOT_UPDATE ∧
        action ≠ WH_SHE_SECURE_BOOT_FINISH ∧ action ≠ WH_SHE_GET_STATUS ∧
        action ≠ WH_SHE_SET_UID) ∨
        (action ≠ WH_SHE_SET_UID ∧ s.uidSet = false))
    · simp only [wh_Server_HandleSheRequest, if_pos hg]
      exact hinv
    · simp only [wh_Server_HandleSheRequest, if_neg hg]
      split
      · exact SheBlInv_resetSb _
      · rename_i hnc
        rcases dispatchSheAction_inv c s action req hinv with h | ⟨hne, hnsb, hsb3⟩
        · exact h
        · exact absurd ⟨hsb3, (normalizeRc_ne _).1 hne,
            fun heq => hnsb ((normalizeRc_ne _).2 heq)⟩ hnc

/-- Witness for C6: concrete overflowing SECURE_BOOT_UPDATE (expected size
4, one 8-byte chunk) observed to answer `SEQUENCE_ERROR` and reset the
boot state, plus the invariant applied at the startup state. -/
theorem C6_witness :
    ((wh_Server_HandleSheRequest trivCrypto
        { sheInitialState with uidSet := true, sbState := .update, blSize := 4 }
        WH_SHE_SECURE_BOOT_UPDATE { sz := 8, chunk := List.replicate 8 0x41 }).2.2.rc =
          .seqErr ∧
      (wh_Server_HandleSheRequest trivCrypto
        { sheInitialState with uidSet := true, sbState := .update, blSize := 4 }
        WH_SHE_SECURE_BOOT_UPDATE { sz := 8, chunk := List.replicate 8 0x41 }).2.1 =
        resetSb { sheInitialState with uidSet := true, sbState := .update, blSize := 4 }) ∧
    SheBlInv (wh_Server_HandleSheRequest trivCrypto sheInitialState WH_SHE_GET_STATUS {}).2.1 :=
  ⟨(C6_secure_boot_size trivCrypto).1
      { sheInitialState with uidSet := true, sbState := .update, blSize := 4 }
      { sz := 8, chunk := List.replicate 8 0x41 } rfl rfl (by decide),
   (C6_secure_boot_size trivCrypto).2.1 sheInitialState WH_SHE_GET_STATUS {}
      SheBlInv_initial⟩

/-- State with UID set and secure boot completed, used to exercise the
post-gate paths at concrete inputs. -/
def sReady : SheState := { sheInitialState with uidSet := true, sbState := .success }

/-- C2: for any action outside {SET_UID, GET_STATUS, SECURE_BOOT_*}, if the
UID is unset or secure boot has not reached SUCCESS, the dispatcher
answers in-band `SEQUENCE_ERROR`, returns 0 and leaves the engine state
untouched (no handler runs); and any action other than SET_UID issued
before a successful SET_UID likewise answers `SEQUENCE_ERROR`. -/
theorem C2_sequence_gate (c : Crypto) (s : SheState) (action : Nat) (req : SheRequest) :
    ((action ≠ WH_SHE_SET_UID ∧ action ≠ WH_SHE_GET_STATUS ∧
      action ≠ WH_SHE_SECURE_BOOT_INIT ∧ action ≠ WH_SHE_SECURE_BOOT_UPDATE ∧
      action ≠ WH_SHE_SECURE_BOOT_FINISH) →
      (s.uidSet = false ∨ s.sbState ≠ .success) →
      wh_Server_HandleSheRequest c s action req =
        (0, s, { emptyResp with rc := .seqErr })) ∧
    (action ≠ WH_SHE_SET_UID → s.uidSet = false →
      wh_Server_HandleSheRequest c s action req =
        (0, s, { emptyResp with rc := .seqErr })) := by
  constructor
  · rintro ⟨h1, h2, h3, h4, h5⟩ h6
    unfold wh_Server_HandleSheRequest
    rcases h6 with h6 | h6
    · rw [if_pos (Or.inr ⟨h1, h6⟩)]
    · rw [if_pos (Or.inl ⟨h6, h3, h4, h5, h2, h1⟩)]
  · intro h1 h2
    unfold wh_Server_HandleSheRequest
    rw [if_pos (Or.inr ⟨h1, h2⟩)]

/-- Witness for C2: an RND request in the startup state (UID unset,
secure boot not passed) answers `SEQUENCE_ERROR` and changes nothing. -/
theorem C2_witness :
    wh_Server_HandleSheRequest trivCrypto sheInitialState WH_SHE_RND {} =
      (0, sheInitialState, { emptyResp with rc := .seqErr }) :=
  (C2_sequence_gate trivCrypto sheInitialState WH_SHE_RND {}).2 (by decide) rfl

/-- C10: an action code outside the fifteen SHE opcodes, issued once the
sequencing gate passes (UID set, secure boot SUCCESS), returns 0 with
`GENERAL_ERROR` in the response `rc` and leaves the engine state
unchanged. -/
theorem C10_unknown_action (c : Crypto) (s : SheState) (action : Nat) (req : SheRequest)
    (huid : s.uidSet = true) (hsb : s.sbState = .success)
    (h1 : action ≠ WH_SHE_SET_UID) (h2 : action ≠ WH_SHE_SECURE_BOOT_INIT)
    (h3 : action ≠ WH_SHE_SECURE_BOOT_UPDATE) (h4 : action ≠ WH_SHE_SECURE_BOOT_FINISH)
    (h5 : action ≠ WH_SHE_GET_STATUS) (h6 : action ≠ WH_SHE_LOAD_KEY)
    (h7 : action ≠ WH_SHE_LOAD_PLAIN_KEY) (h8 : action ≠ WH_SHE_EXPORT_RAM_KEY)
    (h9 : action ≠ WH_SHE_INIT_RND) (h10 : action ≠ WH_SHE_RND)
    (h11 : action ≠ WH_SHE_EXTEND_SEED) (h12 : action ≠ WH_SHE_ENC_ECB)
    (h13 : action ≠ WH_SHE_ENC_CBC) (h14 : action ≠ WH_SHE_DEC_ECB)
    (h15 : action ≠ WH_SHE_DEC_CBC) :
    wh_Server_HandleSheRequest c s action req =
      (0, s, { emptyResp with rc := .generalErr }) := by
  have hg : ¬ ((s.sbState ≠ SbState.success ∧
      action ≠ WH_SHE_SECURE_BOOT_INIT ∧ action ≠ WH_SHE_SECURE_BOOT_UPDATE ∧
      action ≠ WH_SHE_SECURE_BOOT_FINISH ∧ action ≠ WH_SHE_GET_STATUS ∧
      action ≠ WH_SHE_SET_UID) ∨
      (action ≠ WH_SHE_SET_UID ∧ s.uidSet = false)) := by
    simp [huid, hsb]
  unfold wh_Server_HandleSheRequest
  rw [if_neg hg,
      dispatch_eq_default c s action req h1 h2 h3 h4 h5 h6 h7 h8 h9 h10 h11 h12 h13 h14 h15]
  simp [normalizeRc, recognisedShe, h2, h3, h4]

/-- Witness for C10: action code 99 in the post-boot state. -/
theorem C10_witness :
    wh_Server_HandleSheRequest trivCrypto sReady 99 {} =
      (0, sReady, { emptyResp with rc := .generalErr }) :=
  C10_unknown_action trivCrypto sReady 99 {} rfl rfl (by decide) (by decide) (by decide)
    (by decide) (by decide) (by decide) (by decide) (by decide) (by decide) (by decide)
    (by decide) (by decide) (by decide) (by decide) (by decide)

/-- C7: an RND request before a successful INIT_RND answers `RNG_SEED`
in-band and leaves the engine state (in particular `prng_state`)
untouched; after INIT_RND, `prng_state` is stepped through one AES-CBC
encryption under `prng_key` (zero IV, one block) and the new state is
returned as the 16 random bytes. -/
theorem C7_rnd_requires_init (c : Crypto) (s : SheState) (req : SheRequest)
    (huid : s.uidSet = true) (hsb : s.sbState = .success) :
    (s.rndInited = false →
      wh_Server_HandleSheRequest c s WH_SHE_RND req =
        (0, s, { emptyResp with rc := .rngSeed })) ∧
    (s.rndInited = true →
      wh_Server_HandleSheRequest c s WH_SHE_RND req =
        (0, { s with prngState := to16 (c.aesCbcEnc s.prngKey zeros16 (to16 s.prngState)) },
         { emptyResp with
             rnd := to16 (c.aesCbcEnc s.prngKey zeros16 (to16 s.prngState)) })) := by
  have hg : ¬ ((s.sbState ≠ SbState.success ∧
      WH_SHE_RND ≠ WH_SHE_SECURE_BOOT_INIT ∧ WH_SHE_RND ≠ WH_SHE_SECURE_BOOT_UPDATE ∧
      WH_SHE_RND ≠ WH_SHE_SECURE_BOOT_FINISH ∧ WH_SHE_RND ≠ WH_SHE_GET_STATUS ∧
      WH_SHE_RND ≠ WH_SHE_SET_UID) ∨
      (WH_SHE_RND ≠ WH_SHE_SET_UID ∧ s.uidSet = false)) := by
    simp [huid, hsb]
  constructor <;> intro hr <;>
    (unfold wh_Server_HandleSheRequest
     rw [if_neg hg, dispatch_eq_rnd]) <;>
    simp [hsmSheRnd, hr, normalizeRc, recognisedShe, emptyResp,
          WH_SHE_SECURE_BOOT_INIT, WH_SHE_SECURE_BOOT_UPDATE, WH_SHE_SECURE_BOOT_FINISH,
          WH_SHE_RND]

/-- Witness for C7: RND in the post-boot state without INIT_RND answers
`RNG_SEED` and leaves the state unchanged; with `rnd_inited` set, the
PRNG state advances through the cipher and is returned. -/
theorem C7_witness :
    (wh_Server_HandleSheRequest trivCrypto sReady WH_SHE_RND {} =
      (0, sReady, { emptyResp with rc := .rngSeed })) ∧
    (wh_Server_HandleSheRequest trivCrypto { sReady with rndInited := true } WH_SHE_RND {} =
      (0, { { sReady with rndInited := true } with
              prngState := to16 (trivCrypto.aesCbcEnc { sReady with rndInited := true }.prngKey
                zeros16 (to16 { sReady with rndInited := true }.prngState)) },
       { emptyResp with
           rnd := to16 (trivCrypto.aesCbcEnc { sReady with rndInited := true }.prngKey
             zeros16 (to16 { sReady with rndInited := true }.prngState)) })) :=
  ⟨(C7_rnd_requires_init trivCrypto sReady {} rfl rfl).1 rfl,
   (C7_rnd_requires_init trivCrypto { sReady with rndInited := true } {} rfl rfl).2 rfl⟩

/-- C5 (amended): SECURE_BOOT_FINISH in state FINISH — if the computed
CMAC equals the stored `BOOT_MAC` digest, `sb_state` becomes SUCCESS and
the response `rc` is NO_ERROR; if the digests differ, the handler fails
with `GENERAL_ERROR` (setting FAILURE internally) but the dispatcher's
secure-boot cleanup then resets the boot state, so the observable state
after return is `sb_state = INIT`; a missing digest answers
`KEY_NOT_AVAILABLE` and is likewise reset to INIT. -/
theorem C5_secure_boot_finish (c : Crypto) (s : SheState) (req : SheRequest)
    (huid : s.uidSet = true) (hsb : s.sbState = .finish) :
    (hsmReadKey s BOOT_MAC_ID = none →
      (wh_Server_HandleSheRequest c s WH_SHE_SECURE_BOOT_FINISH req).2.2.rc = .keyNotAvail ∧
      (wh_Server_HandleSheRequest c s WH_SHE_SECURE_BOOT_FINISH req).2.1 = resetSb s) ∧
    (∀ (m : WhMeta) (digest : List Nat), hsmReadKey s BOOT_MAC_ID = some (m, digest) →
      (to16 (c.cmac s.cmacKey s.cmacMsg) = to16 digest →
        (wh_Server_HandleSheRequest c s WH_SHE_SECURE_BOOT_FINISH req).2.2.rc = .ok ∧
        (wh_Server_HandleSheRequest c s WH_SHE_SECURE_BOOT_FINISH req).2.1 =
          { s with sbState := .success }) ∧
      (to16 (c.cmac s.cmacKey s.cmacMsg) ≠ to16 digest →
        (wh_Server_HandleSheRequest c s WH_SHE_SECURE_BOOT_FINISH req).2.2.rc = .generalErr ∧
        (wh_Server_HandleSheRequest c s WH_SHE_SECURE_BOOT_FINISH req).2.1 = resetSb s)) := by
  have hg : ¬ ((s.sbState ≠ SbState.success ∧
      WH_SHE_SECURE_BOOT_FINISH ≠ WH_SHE_SECURE_BOOT_INIT ∧
      WH_SHE_SECURE_BOOT_FINISH ≠ WH_SHE_SECURE_BOOT_UPDATE ∧
      WH_SHE_SECURE_BOOT_FINISH ≠ WH_SHE_SECURE_BOOT_FINISH ∧
      WH_SHE_SECURE_BOOT_FINISH ≠ WH_SHE_GET_STATUS ∧
      WH_SHE_SECURE_BOOT_FINISH ≠ WH_SHE_SET_UID) ∨
      (WH_SHE_SECURE_BOOT_FINISH ≠ WH_SHE_SET_UID ∧ s.uidSet = false)) := by
    simp [huid]
  refine ⟨?_, ?_⟩
  · intro hread
    unfold wh_Server_HandleSheRequest
    rw [if_neg hg, dispatch_eq_sbFinish]
    simp [hsmSheSecureBootFinish, hsb, hread, normalizeRc, recognisedShe, resetSb,
          WH_SHE_SECURE_BOOT_INIT, WH_SHE_SECURE_BOOT_UPDATE, WH_SHE_SECURE_BOOT_FINISH]
  · intro m digest hread
    constructor <;> intro hcmp <;>
      (unfold wh_Server_HandleSheRequest
       rw [if_neg hg, dispatch_eq_sbFinish]) <;>
      simp [hsmSheSecureBootFinish, hsb, hread, hcmp, normalizeRc, recognisedShe, resetSb,
            emptyResp,
            WH_SHE_SECURE_BOOT_INIT, WH_SHE_SECURE_BOOT_UPDATE, WH_SHE_SECURE_BOOT_FINISH]

/-- Engine state in the FINISH phase whose stored `BOOT_MAC` digest does
not match the CMAC the concrete crypto computes. -/
def sFinishBad : SheState :=
  { sheInitialState with
      uidSet := true
      sbState := .finish
      store := [(BOOT_MAC_ID, { id := BOOT_MAC_ID, len := 16, flags := 0, count := 0 },
                 List.replicate 16 1)] }

/-- Counterexample for C5 as stated: on a digest mismatch the response is
`GENERAL_ERROR` as claimed, but the state observable after
`HandleSheRequest` returns is `sb_state = INIT`, not FAILURE — the
dispatcher's secure-boot cleanup has already reset the machine. -/
theorem C5_counterexample :
    (wh_Server_HandleSheRequest trivCrypto sFinishBad WH_SHE_SECURE_BOOT_FINISH {}).2.2.rc =
        .generalErr ∧
    (wh_Server_HandleSheRequest trivCrypto sFinishBad WH_SHE_SECURE_BOOT_FINISH {}).2.1.sbState =
        .init ∧
    (wh_Server_HandleSheRequest trivCrypto sFinishBad WH_SHE_SECURE_BOOT_FINISH {}).2.1.sbState ≠
        .failure := by
  decide

/-- Witness for C5 (amended) at the concrete mismatching state, and at a
matching state for the SUCCESS branch. -/
theorem C5_witness :
    ((wh_Server_HandleSheRequest trivCrypto sFinishBad WH_SHE_SECURE_BOOT_FINISH {}).2.2.rc =
        .generalErr ∧
     (wh_Server_HandleSheRequest trivCrypto sFinishBad WH_SHE_SECURE_BOOT_FINISH {}).2.1 =
        resetSb sFinishBad) ∧
    ((wh_Server_HandleSheRequest trivCrypto
        { sFinishBad with store := [(BOOT_MAC_ID,
            { id := BOOT_MAC_ID, len := 16, flags := 0, count := 0 }, zeros16)] }
        WH_SHE_SECURE_BOOT_FINISH {}).2.2.rc = .ok ∧
     (wh_Server_HandleSheRequest trivCrypto
        { sFinishBad with store := [(BOOT_MAC_ID,
            { id := BOOT_MAC_ID, len := 16, flags := 0, count := 0 }, zeros16)] }
        WH_SHE_SECURE_BOOT_FINISH {}).2.1 =
        { { sFinishBad with store := [(BOOT_MAC_ID,
            { id := BOOT_MAC_ID, len := 16, flags := 0, count := 0 }, zeros16)] } with
            sbState := .success }) :=
  ⟨((C5_secure_boot_finish trivCrypto sFinishBad {} rfl rfl).2
      { id := BOOT_MAC_ID, len := 16, flags := 0, count := 0 }
      (List.replicate 16 1) rfl).2 (by decide),
   ((C5_secure_boot_finish trivCrypto
      { sFinishBad with store := [(BOOT_MAC_ID,
          { id := BOOT_MAC_ID, len := 16, flags := 0, count := 0 }, zeros16)] } {} rfl rfl).2
      { id := BOOT_MAC_ID, len := 16, flags := 0, count := 0 }
      zeros16 rfl).1 (by decide)⟩

/-- Device UID used by the LOAD_KEY evaluation states. -/
def uid15 : List Nat := List.replicate 15 1

/-- Post-boot engine state holding only an authorisation key in slot 1. -/
def sLoadKey : SheState :=
  { sheInitialState with
      uid := uid15
      uidSet := true
      sbState := .success
      store := [(1, { id := 1, len := 16, flags := 0, count := 0 }, zeros16)] }

/-- First LOAD_KEY request: target slot 4, auth slot 1, wire counter word
`10 00 00 00` (big-endian counter 0x01000000), new key `AA…AA`.  Under
`trivCrypto` the CMAC check passes (`M3 = 0^16`) and CBC decryption is the
identity. -/
def reqLoadKeyA : SheRequest :=
  { m1 := uid15 ++ [0x41],
    m2 := [0x10, 0, 0, 0] ++ List.replicate 12 0 ++ List.replicate 16 0xAA,
    m3 := zeros16 }

/-- Second LOAD_KEY request on the same slot: wire counter word
`00 01 00 00` (big-endian counter 0x1000, a rollback), new key `BB…BB`. -/
def reqLoadKeyB : SheRequest :=
  { m1 := uid15 ++ [0x41],
    m2 := [0, 1, 0, 0] ++ List.replicate 12 0 ++ List.replicate 16 0xBB,
    m3 := zeros16 }

/-- Engine state after the first LOAD_KEY succeeded (slot 4 stored with
counter 1 as the code keeps it). -/
def sLoadKey2 : SheState :=
  (wh_Server_HandleSheRequest trivCrypto sLoadKey WH_SHE_LOAD_KEY reqLoadKeyA).2.1

/-- Evaluation of the C1 failing input: the first LOAD_KEY succeeds; the
second carries a big-endian-decoded counter (0x1000) strictly below the
first one (0x01000000), yet the handler also answers NO_ERROR and
replaces the stored key and metadata — because the code compares
`ntohl(raw >> 4)` values, which is not monotone in the big-endian
counter.  The claim (and the code's own comment "verify counter is
greater than stored value") requires `KEY_UPDATE_ERROR` here. -/
theorem C1_code_bug_eval :
    (wh_Server_HandleSheRequest trivCrypto sLoadKey WH_SHE_LOAD_KEY reqLoadKeyA).2.2.rc =
        .ok ∧
    be32 reqLoadKeyB.m2 / 16 < be32 reqLoadKeyA.m2 / 16 ∧
    (wh_Server_HandleSheRequest trivCrypto sLoadKey2 WH_SHE_LOAD_KEY reqLoadKeyB).2.2.rc =
        .ok ∧
    storeGet (wh_Server_HandleSheRequest trivCrypto sLoadKey2 WH_SHE_LOAD_KEY reqLoadKeyB).2.1.store
        4 =
      some ({ id := 4, len := 16, flags := 0, count := 16 }, List.replicate 16 0xBB) := by
  decide

/-- Post-boot engine state with an auth key in slot 1 and a
wildcard-flagged key in slot 4. -/
def sWildcard : SheState :=
  { sheInitialState with
      uid := uid15
      uidSet := true
      sbState := .success
      store := [(1, { id := 1, len := 16, flags := 0, count := 0 }, zeros16),
                (4, { id := 4, len := 16, flags := FLAG_WILDCARD, count := 0 },
                 List.replicate 16 0xCC)] }

/-- LOAD_KEY request whose M1 starts `07 00 … 00`: the first 15 bytes are
neither all zero nor equal to the server UID `01 01 … 01`. -/
def reqWildcard : SheRequest :=
  { m1 := 7 :: List.replicate 14 0 ++ [0x41],
    m2 := [0x10, 0, 0, 0] ++ List.replicate 12 0 ++ List.replicate 16 0xDD,
    m3 := zeros16 }

/-- Evaluation of the C3 failing input: M1's first 15 bytes are not all
zero (the first byte is 7) and differ from the server UID, so the claim
requires `KEY_UPDATE_ERROR`; but `XMEMEQZERO(M1, 15)` never inspects byte
0, classifies this M1 as the all-zero wildcard UID, finds the WILDCARD
flag set and lets the update succeed with NO_ERROR. -/
theorem C3_code_bug_eval :
    XMEMEQZERO reqWildcard.m1 15 = true ∧
    ¬ (∀ i < 15, reqWildcard.m1.getD i 0 = 0) ∧
    toN 15 reqWildcard.m1 ≠ toN 15 sWildcard.uid ∧
    (wh_Server_HandleSheRequest trivCrypto sWildcard WH_SHE_LOAD_KEY reqWildcard).2.2.rc =
        .ok := by
  decide
